import Mathlib

/-!
CuteSDR control layer and demodulator interface.

A shallow embedding of the parts of `trunk/dsp/demodulator.h`, `trunk/dsp/samdemod.h`,
`trunk/gui/mainwindow.cpp` and `gui/filetxdlg.cpp` that decide the per-mode filter
configuration, the demodulator frequency offset, the wideband-FM status queries, the
status timer, the persisted settings, the vertical scale of the plot and the transmit
test data path.

* C++ `int` / `qint64` values are `Int`.  Where the modelled code adds, subtracts or
  multiplies values that can leave the range of their type, the result is reduced to the
  two's-complement range explicitly: `qint64_sub` for the difference of two frequencies,
  `int_add`, `int_sub`, `int_mul`, `int_div` for `m_MaxdB` and for the sample counter of
  the copy loop.  The keep-alive counter and the byte count of a data message stay far
  below the range of `int`.
* Member functions that `demodulator.h` and `samdemod.h` declare without body are
  modelled from the specification; their doc comments say so.
* `MainWindow` is a record of the member variables the modelled handlers touch, together
  with the list of calls the handler makes on its collaborators (the SDR interface and
  the widgets), oldest first.
* `m_DemodSettings` is the array `tDemodInfo m_DemodSettings[NUM_DEMODS]`.  The C++ code
  indexes it with an unchecked `int`, so the model is a total map from the index; cells
  `0 .. NUM_DEMODS-1` are the array.
-/

namespace CuteSdr

/-! ## demodulator.h -/

def DEMOD_AM : Int := 0
def DEMOD_SAM : Int := 1
def DEMOD_FM : Int := 2
def DEMOD_USB : Int := 3
def DEMOD_LSB : Int := 4
def DEMOD_CWU : Int := 5
def DEMOD_CWL : Int := 6
def DEMOD_WFM : Int := 7
def DEMOD_PSK : Int := 9

def NUM_DEMODS : Int := 10

def MAX_INBUFSIZE : Int := 250000

def MAX_MAGBUFSIZE : Int := 32000

/-- `TYPEREAL` (a floating-point type declared outside the modelled sources).  The modelled
code only stores, compares and halves such values, so they are taken as exact rationals. -/
abbrev TYPEREAL := ℚ

/-- `TYPECPX`: a complex sample, the pair of its in-phase and quadrature parts. -/
structure TYPECPX where
  re : TYPEREAL
  im : TYPEREAL
  deriving DecidableEq

/-- Modelled from the spec: `DEMOD_FSK` is used by `mainwindow.cpp` (digital-frequency
mode) but `demodulator.h` has no `#define` for it.  The spec lists ten modes in one fixed
enumeration indexed below `NUM_DEMODS`; the nine constants of the header take
`0 .. 7` and `9`, so the tenth mode is given the one index they leave free. -/
def DEMOD_FSK : Int := 8

/-- The `tDemodInfo` struct (`struct _sdmd`), fields in declaration order. -/
structure tDemodInfo where
  HiCut : Int
  HiCutmin : Int
  HiCutmax : Int
  LowCut : Int
  LowCutmin : Int
  LowCutmax : Int
  DefFreqClickResolution : Int
  FreqClickResolution : Int
  FilterClickResolution : Int
  Offset : Int
  SquelchValue : Int
  AgcSlope : Int
  AgcThresh : Int
  AgcManualGain : Int
  AgcDecay : Int
  AgcOn : Bool
  AgcHangOn : Bool
  Symetric : Bool
  txt : String
  deriving DecidableEq

/-! ## mainwindow.cpp : state -/

/-- The part of `tRDS_GROUPS` that `mainwindow.cpp` reads (the type is declared outside
the modelled sources). -/
structure tRDS_GROUPS where
  BlockA : Int
  deriving DecidableEq, Repr

/-- The values of `CSdrInterface::eStatus` that `mainwindow.cpp` names; `other` stands for
any status value that is none of them (the `default:` case of `OnStatus`). -/
inductive eStatus where
  | NOT_CONNECTED
  | CONNECTING
  | CONNECTED
  | RUNNING
  | ERR
  | ADOVR
  | other (code : Int)
  deriving DecidableEq, Repr

/-- A call made by a `MainWindow` handler on one of its collaborators.  Calls on
`m_pSdrInterface` carry their arguments; widget calls whose arguments do not feed back
into the window state are recorded by name. -/
inductive Call where
  | qDebug (value : Int)
  | SetDemod (Mode : Int) (CurrentDemodInfo : tDemodInfo)
  | SetDemodFreq (Freq : Int)
  | SetRxFreq (freq : Int)
  | SetForwardingParameters
  | StartSdr
  | StopSdr
  | ClearMissedPackets
  | SetChatDialogState (state : Bool)
  | SetDemodRanges (FLowCmin FLowCmax FHiCmin FHiCmax : Int) (symetric : Bool)
  | SetHiLowCutFrequencies (LowCut HiCut : Int)
  | SetFilterClickResolution (clickres : Int)
  | UpdateOverlay
  | SetInfoText (txt : String) (Lo Hi : Int)
  | SetSquelchPos (pos : Int)
  | SetClickResolution (clickres : Int)
  | FreqCtrlSetFrequency (freq : Int)
  | PlotSetCenterFreq (freq : Int)
  | PlotSetDemodCenterFreq (freq : Int)
  | DemodFreqCtrlSetup
  | DemodFreqCtrlSetFrequency (freq : Int)
  | SetRunningState (running : Bool)
  | InitPerformance
  | ReadPerformance
  | DecodeReset
  | StopRecord
  | StatusBarShowMessage (text : String)
  | RunButtonSetText (text : String)
  | RunButtonSetEnabled (enabled : Bool)
  | GetSdrInfo
  | GetRateError
  | SetADOverload (overload : Bool)
  | KeepAlive
  | ConnectToServer
  | GetSMeterAve
  | SetdBmLevel
  | GetStereoLock
  | GetNextRdsGroupData
  | DecodeRdsGroup (group : tRDS_GROUPS)
  | GetRdsString
  | GetRdsCallString
  | ClearRdsCall
  | ClearRdsText
  | PlotSetdBStepSize (stepsize : Int)
  | MaxdBSetSingleStep (stepsize : Int)
  | MaxdBSetMinimum
  | MaxdBSetMaximum
  | MaxdBSetValue (value : Int)
  | PlotSetMaxdB (maxdb : Int)
  deriving DecidableEq

/-- The member variables of `MainWindow` used by the modelled handlers, and the calls made
so far. -/
structure MainWindow where
  m_DemodSettings : Int → tDemodInfo
  m_DemodMode : Int
  m_CenterFrequency : Int
  m_DemodFrequency : Int
  m_FreqChanged : Bool
  m_Status : eStatus
  m_LastStatus : eStatus
  m_KeepAliveTimer : Int
  calls : List Call
  m_VertScaleIndex : Int := 0
  m_dBStepSize : Int := 0
  m_MaxdB : Int := 0

namespace MainWindow

/-- Record a call on a collaborator. -/
def call (w : MainWindow) (c : Call) : MainWindow :=
  { w with calls := w.calls ++ [c] }

/-- An assignment to fields of `m_DemodSettings[index]`. -/
def assign (w : MainWindow) (index : Int) (f : tDemodInfo → tDemodInfo) : MainWindow :=
  { w with m_DemodSettings := fun i => if i = index then f (w.m_DemodSettings index)
                                       else w.m_DemodSettings i }

end MainWindow

/-- The arguments of the `SetDemod` calls in a call list, oldest first. -/
def setDemodCalls (l : List Call) : List (Int × tDemodInfo) :=
  l.filterMap (fun c => match c with
    | .SetDemod Mode info => some (Mode, info)
    | _ => none)

/-- The arguments of the `SetDemodFreq` calls in a call list, oldest first. -/
def demodFreqCalls (l : List Call) : List Int :=
  l.filterMap (fun c => match c with
    | .SetDemodFreq Freq => some Freq
    | _ => none)

/-- The calls in a call list that concern the RDS data path: the two WFM status queries,
the RDS decoder calls and the clearing of the two RDS strings of the plot. -/
def rdsCalls (l : List Call) : List Call :=
  l.filter (fun c => match c with
    | .GetStereoLock => true
    | .GetNextRdsGroupData => true
    | .DecodeRdsGroup _ => true
    | .DecodeReset => true
    | .GetRdsString => true
    | .GetRdsCallString => true
    | .ClearRdsCall => true
    | .ClearRdsText => true
    | _ => false)

/-- The groups passed to `DecodeRdsGroup` in a call list, oldest first. -/
def decodedGroups (l : List Call) : List tRDS_GROUPS :=
  l.filterMap (fun c => match c with
    | .DecodeRdsGroup group => some group
    | _ => none)

/-- The calls in a call list that belong to the keep-alive branch of `OnTimer`. -/
def keepAliveCalls (l : List Call) : List Call :=
  l.filter (fun c => match c with
    | .KeepAlive => true
    | .ConnectToServer => true
    | _ => false)

/-- The `StopSdr` calls in a call list. -/
def stopSdrCalls (l : List Call) : List Call :=
  l.filter (fun c => match c with
    | .StopSdr => true
    | _ => false)

/-- Reduction of an integer to the two's-complement range of a 32-bit `int`: the cast
`(int)` applied to a `qint64`. -/
def wrap32 (x : Int) : Int := (x + 2 ^ 31) % 2 ^ 32 - 2 ^ 31

/-- Addition of two `int` values, wrapping around at 32 bits on overflow. -/
def int_add (a b : Int) : Int := wrap32 (a + b)

/-- Subtraction of two `int` values, wrapping around at 32 bits on overflow. -/
def int_sub (a b : Int) : Int := wrap32 (a - b)

/-- Multiplication of two `int` values, wrapping around at 32 bits on overflow. -/
def int_mul (a b : Int) : Int := wrap32 (a * b)

/-- Division of two `int` values: the quotient truncated toward zero (`Int.tdiv`). -/
def int_div (a b : Int) : Int := wrap32 (Int.tdiv a b)

/-- Reduction of an integer to the two's-complement range of `qint64`. -/
def wrap64 (x : Int) : Int := (x + 2 ^ 63) % 2 ^ 64 - 2 ^ 63

/-- The C++ expression `a - b` on two `qint64` operands. -/
def qint64_sub (a b : Int) : Int := wrap64 (a - b)

/-! ## mainwindow.cpp : handlers -/

/-- `MainWindow::UpdateInfoBox`: displays the label and the filter cutoffs of the active
mode. -/
def UpdateInfoBox (w : MainWindow) : MainWindow :=
  w.call (.SetInfoText (w.m_DemodSettings w.m_DemodMode).txt
    (w.m_DemodSettings w.m_DemodMode).LowCut (w.m_DemodSettings w.m_DemodMode).HiCut)

/-- The four clamping statements of `MainWindow::SetupDemod` (lines 1258-1266), as they
act on the entry `m_DemodSettings[index]`. -/
def clampCutoffs (d : tDemodInfo) : tDemodInfo :=
  let d := if d.LowCut < d.LowCutmin then { d with LowCut := d.LowCutmin } else d
  let d := if d.LowCut > d.LowCutmax then { d with LowCut := d.LowCutmax } else d
  let d := if d.HiCut < d.HiCutmin then { d with HiCut := d.HiCutmin } else d
  let d := if d.HiCut > d.HiCutmax then { d with HiCut := d.HiCutmax } else d
  d

/-- `MainWindow::SetupDemod(int index)`. -/
def SetupDemod (w : MainWindow) (index : Int) : MainWindow :=
  let w := w.call (.qDebug index)
  let w := if w.m_DemodMode ≠ index then
      (if DEMOD_PSK = index ∨ DEMOD_FSK = index then w.call (.SetChatDialogState true)
       else w.call (.SetChatDialogState false))
    else w
  let w := { w with m_DemodMode := index }
  let w := w.call (.SetDemodRanges
      (w.m_DemodSettings w.m_DemodMode).LowCutmin
      (w.m_DemodSettings w.m_DemodMode).LowCutmax
      (w.m_DemodSettings w.m_DemodMode).HiCutmin
      (w.m_DemodSettings w.m_DemodMode).HiCutmax
      (w.m_DemodSettings w.m_DemodMode).Symetric)
  let w := w.assign index clampCutoffs
  let w := w.call (.SetHiLowCutFrequencies (w.m_DemodSettings w.m_DemodMode).LowCut
      (w.m_DemodSettings w.m_DemodMode).HiCut)
  let w := w.call (.SetFilterClickResolution
      (w.m_DemodSettings w.m_DemodMode).FilterClickResolution)
  let w := w.call .UpdateOverlay
  let w := w.call (.SetDemod w.m_DemodMode (w.m_DemodSettings w.m_DemodMode))
  let w := w.call (.SetDemodFreq (qint64_sub w.m_CenterFrequency w.m_DemodFrequency))
  let w := UpdateInfoBox w
  let w := w.call (.SetSquelchPos (w.m_DemodSettings w.m_DemodMode).SquelchValue)
  let w := w.call (.SetClickResolution (w.m_DemodSettings w.m_DemodMode).FreqClickResolution)
  w

/-- `MainWindow::OnNewLowCutFreq(int freq)`. -/
def OnNewLowCutFreq (w : MainWindow) (freq : Int) : MainWindow :=
  let w := w.assign w.m_DemodMode (fun d => { d with LowCut := freq })
  let w := UpdateInfoBox w
  let w := w.call (.SetDemod w.m_DemodMode (w.m_DemodSettings w.m_DemodMode))
  w

/-- `MainWindow::OnNewHighCutFreq(int freq)`. -/
def OnNewHighCutFreq (w : MainWindow) (freq : Int) : MainWindow :=
  let w := w.assign w.m_DemodMode (fun d => { d with HiCut := freq })
  let w := UpdateInfoBox w
  let w := w.call (.SetDemod w.m_DemodMode (w.m_DemodSettings w.m_DemodMode))
  w

/-- `MainWindow::OnNewCenterFrequency(qint64 freq)`.  `rxFreq` is the value
`m_pSdrInterface->SetRxFreq` returns for a requested frequency (the SDR interface is not
part of the modelled sources). -/
def OnNewCenterFrequency (rxFreq : Int → Int) (w : MainWindow) (freq : Int) : MainWindow :=
  let w := w.call (.SetRxFreq freq)
  let w := { w with m_CenterFrequency := rxFreq freq }
  let w := if w.m_CenterFrequency ≠ freq then w.call (.FreqCtrlSetFrequency w.m_CenterFrequency)
    else w
  let w := { w with m_DemodFrequency := w.m_CenterFrequency }
  let w := w.call (.SetDemodFreq (qint64_sub w.m_CenterFrequency w.m_DemodFrequency))
  let w := w.call (.PlotSetCenterFreq w.m_CenterFrequency)
  let w := w.call (.PlotSetDemodCenterFreq w.m_DemodFrequency)
  let w := w.call .DemodFreqCtrlSetup
  let w := w.call (.DemodFreqCtrlSetFrequency w.m_DemodFrequency)
  let w := { w with m_FreqChanged := true }
  let w := w.call .UpdateOverlay
  w

/-- `MainWindow::OnNewDemodFrequency(qint64 freq)`. -/
def OnNewDemodFrequency (w : MainWindow) (freq : Int) : MainWindow :=
  let w := { w with m_DemodFrequency := freq }
  let w := w.call (.PlotSetDemodCenterFreq w.m_DemodFrequency)
  let w := w.call .UpdateOverlay
  let w := w.call (.SetDemodFreq (qint64_sub w.m_CenterFrequency w.m_DemodFrequency))
  let w := { w with m_FreqChanged := true }
  w

/-- `MainWindow::OnRun()`, with `rxFreq` as in `OnNewCenterFrequency`. -/
def OnRun (rxFreq : Int → Int) (w : MainWindow) : MainWindow :=
  if eStatus.CONNECTED = w.m_Status then
    let w := w.call (.SetRxFreq w.m_CenterFrequency)
    let w := { w with m_CenterFrequency := rxFreq w.m_CenterFrequency }
    let w := w.call (.SetDemodFreq (qint64_sub w.m_CenterFrequency w.m_DemodFrequency))
    let w := w.call .SetForwardingParameters
    let w := w.call .StartSdr
    let w := w.call .ClearMissedPackets
    let w := w.call (.SetRunningState true)
    let w := w.call .InitPerformance
    let w := w.call .DecodeReset
    w
  else if eStatus.RUNNING = w.m_Status then
    let w := w.call .StopRecord
    let w := w.call .StopSdr
    let w := w.call (.SetRunningState false)
    let w := w.call .ReadPerformance
    w
  else w

/-- `MainWindow::InitDemodSettings()`: the fixed per-mode limits, in source order. -/
def InitDemodSettings (w : MainWindow) : MainWindow :=
  let w := w.assign DEMOD_AM (fun d => { d with
    txt := "AM", HiCutmin := 500, HiCutmax := 10000, LowCutmax := -500, LowCutmin := -10000,
    Symetric := true, DefFreqClickResolution := 1000, FilterClickResolution := 100 })
  let w := w.assign DEMOD_SAM (fun d => { d with
    txt := "AM", HiCutmin := 100, HiCutmax := 10000, LowCutmax := -100, LowCutmin := -10000,
    Symetric := false, DefFreqClickResolution := 1000, FilterClickResolution := 100 })
  let w := w.assign DEMOD_FM (fun d => { d with
    txt := "FM", HiCutmin := 5000, HiCutmax := 15000, LowCutmax := -5000, LowCutmin := -15000,
    Symetric := true, DefFreqClickResolution := 5000, FilterClickResolution := 5000 })
  let w := w.assign DEMOD_WFM (fun d => { d with
    txt := "WFM", HiCutmin := 100000, HiCutmax := 100000, LowCutmax := -100000,
    LowCutmin := -100000,
    Symetric := true, DefFreqClickResolution := 100000, FilterClickResolution := 10000 })
  let w := w.assign DEMOD_USB (fun d => { d with
    txt := "USB", HiCutmin := 500, HiCutmax := 20000, LowCutmax := 200, LowCutmin := 0,
    Symetric := false, DefFreqClickResolution := 100, FilterClickResolution := 100 })
  let w := w.assign DEMOD_LSB (fun d => { d with
    txt := "LSB", HiCutmin := -200, HiCutmax := 0, LowCutmax := -500, LowCutmin := -20000,
    Symetric := false, DefFreqClickResolution := 100, FilterClickResolution := 100 })
  let w := w.assign DEMOD_CWU (fun d => { d with
    txt := "CWU", HiCutmin := 50, HiCutmax := 1000, LowCutmax := -50, LowCutmin := -1000,
    Symetric := false, DefFreqClickResolution := 10, FilterClickResolution := 50 })
  let w := w.assign DEMOD_CWL (fun d => { d with
    txt := "CWL", HiCutmin := 50, HiCutmax := 1000, LowCutmax := -50, LowCutmin := -1000,
    Symetric := false, DefFreqClickResolution := 10, FilterClickResolution := 50 })
  let w := w.assign DEMOD_PSK (fun d => { d with
    txt := "PSK", HiCutmin := 50, HiCutmax := 50, LowCutmax := -50, LowCutmin := -50,
    Symetric := true, DefFreqClickResolution := 1, FilterClickResolution := 5 })
  let w := w.assign DEMOD_FSK (fun d => { d with
    txt := "Raw DSC", HiCutmin := 20, HiCutmax := 200, LowCutmax := -20, LowCutmin := -200,
    Symetric := true, DefFreqClickResolution := 10, FilterClickResolution := 10 })
  w

/-- The `DemodMode` line of `MainWindow::readSettings()` (line 503):
`m_DemodMode = settings.value("DemodMode", DEMOD_AM).toInt()`.  `stored` is the integer
held under the key, `none` when the key is absent. -/
def readSettings_DemodMode (stored : Option Int) (w : MainWindow) : MainWindow :=
  { w with m_DemodMode := stored.getD DEMOD_AM }

/-- The demodulator part of the `MainWindow` constructor after `readSettings()`
(lines 236-239): `SetupDemod(m_DemodMode)`, the RDS decoder reset and the second
`SetDemod` call. -/
def constructorSetup (w : MainWindow) : MainWindow :=
  let w := SetupDemod w w.m_DemodMode
  let w := w.call .DecodeReset
  let w := w.call (.SetDemod w.m_DemodMode (w.m_DemodSettings w.m_DemodMode))
  w

/-- A `tDemodInfo` with every field zero / false / empty. -/
def zeroDemodInfo : tDemodInfo :=
  { HiCut := 0, HiCutmin := 0, HiCutmax := 0, LowCut := 0, LowCutmin := 0, LowCutmax := 0,
    DefFreqClickResolution := 0, FreqClickResolution := 0, FilterClickResolution := 0,
    Offset := 0, SquelchValue := 0, AgcSlope := 0, AgcThresh := 0, AgcManualGain := 0,
    AgcDecay := 0, AgcOn := false, AgcHangOn := false, Symetric := false, txt := "" }

/-- A window with zeroed members and no calls made, as a concrete starting point. -/
def zeroWindow : MainWindow :=
  { m_DemodSettings := fun _ => zeroDemodInfo, m_DemodMode := 0, m_CenterFrequency := 0,
    m_DemodFrequency := 0, m_FreqChanged := false, m_Status := .NOT_CONNECTED,
    m_LastStatus := .NOT_CONNECTED, m_KeepAliveTimer := 0, calls := [] }

/-- `MainWindow::OnStatus(int status)`. -/
def OnStatus (w : MainWindow) (status : eStatus) : MainWindow :=
  let w := { w with m_Status := status }
  let w := match status with
    | .NOT_CONNECTED | .CONNECTING =>
      let w := if w.m_LastStatus = eStatus.RUNNING then
          (w.call .StopSdr).call (.SetRunningState false)
        else w
      let w := w.call (.StatusBarShowMessage "SDR Not Connected")
      let w := w.call (.RunButtonSetText "Run")
      let w := w.call (.RunButtonSetEnabled false)
      w
    | .CONNECTED =>
      let w := if w.m_LastStatus = eStatus.RUNNING then
          (w.call .StopSdr).call (.SetRunningState false)
        else w
      let w := w.call (.StatusBarShowMessage " Connected")
      let w := if w.m_LastStatus = eStatus.NOT_CONNECTED ∨ w.m_LastStatus = eStatus.CONNECTING
        then w.call .GetSdrInfo else w
      let w := w.call (.RunButtonSetText "Run")
      let w := w.call (.RunButtonSetEnabled true)
      w
    | .RUNNING =>
      let w := w.call .GetRateError
      let w := w.call (.StatusBarShowMessage " Running   ")
      let w := w.call (.RunButtonSetText "Stop")
      let w := w.call (.RunButtonSetEnabled true)
      w
    | .ERR =>
      let w := if w.m_LastStatus = eStatus.RUNNING then
          (w.call .StopSdr).call (.SetRunningState false)
        else w
      let w := w.call (.StatusBarShowMessage "SDR Not Connected")
      let w := w.call (.RunButtonSetText "Run")
      let w := w.call (.RunButtonSetEnabled false)
      w
    | .ADOVR =>
      if w.m_LastStatus = eStatus.RUNNING then
        let w := { w with m_Status := eStatus.RUNNING }
        let w := w.call (.SetADOverload true)
        w
      else w
    | .other _ => w
  { w with m_LastStatus := w.m_Status }

/-- The keep-alive part of `MainWindow::OnTimer` (lines 562-569). -/
def OnTimer_keepAlive (w : MainWindow) : MainWindow :=
  let w := { w with m_KeepAliveTimer := w.m_KeepAliveTimer + 1 }
  if w.m_KeepAliveTimer > 5 then
    let w := { w with m_KeepAliveTimer := 0 }
    let w := if eStatus.RUNNING = w.m_Status ∨ eStatus.CONNECTED = w.m_Status then
        w.call .KeepAlive else w
    let w := if eStatus.NOT_CONNECTED = w.m_Status then w.call .ConnectToServer else w
    w
  else w

/-- The wideband-FM part of `MainWindow::OnTimer` (lines 571-608).  `stereoLock` is the
value `GetStereoLock(NULL)` returns, `rdsRet` and `RdsGroups` are the value
`GetNextRdsGroupData(&RdsGroups)` returns and the group it stores, `rdsString` and
`rdsCallString` are the values returned by `GetRdsString` and `GetRdsCallString`. -/
def OnTimer_wfm (stereoLock rdsRet : Int) (RdsGroups : tRDS_GROUPS)
    (rdsString rdsCallString : Bool) (w : MainWindow) : MainWindow :=
  if DEMOD_WFM = w.m_DemodMode then
    let r : MainWindow × Bool :=
      if w.m_FreqChanged then
        let w := { w with m_FreqChanged := false }
        let w := w.call .DecodeReset
        let w := w.call .ClearRdsCall
        let w := w.call .ClearRdsText
        (w, true)
      else
        let w := w.call .GetStereoLock
        let update := if stereoLock ≠ 0 then true else false
        let w := w.call .GetNextRdsGroupData
        if rdsRet ≠ 0 then
          if 0 ≠ RdsGroups.BlockA then
            let w := w.call (.DecodeRdsGroup RdsGroups)
            let w := w.call .GetRdsString
            let update := if rdsString then true else update
            let w := w.call .GetRdsCallString
            let update := if rdsCallString then true else update
            (w, update)
          else
            let w := w.call .DecodeReset
            let w := w.call .ClearRdsCall
            let w := w.call .ClearRdsText
            (w, true)
        else (w, update)
    if r.2 then r.1.call .UpdateOverlay else r.1
  else w

/-- `MainWindow::OnTimer()`, with the values returned by the queried collaborators as in
`OnTimer_wfm`. -/
def OnTimer (stereoLock rdsRet : Int) (RdsGroups : tRDS_GROUPS)
    (rdsString rdsCallString : Bool) (w : MainWindow) : MainWindow :=
  let w := OnStatus w w.m_Status
  let w := OnTimer_keepAlive w
  let w := w.call .GetSMeterAve
  let w := w.call .SetdBmLevel
  OnTimer_wfm stereoLock rdsRet RdsGroups rdsString rdsCallString w

/-- One `OnTimer` call in a run of the window: what the other handlers do to the window
before the timer fires (`before`), and the values the collaborators return during the
call, as in `OnTimer_wfm`. -/
structure TimerTick where
  before : MainWindow → MainWindow
  stereoLock : Int
  rdsRet : Int
  RdsGroups : tRDS_GROUPS
  rdsString : Bool
  rdsCallString : Bool

/-- The window just before the `OnTimer` call of a tick, and after it. -/
def TimerTick.run (t : TimerTick) (w : MainWindow) : MainWindow :=
  OnTimer t.stereoLock t.rdsRet t.RdsGroups t.rdsString t.rdsCallString (t.before w)

/-- A run of the window through a sequence of timer ticks, oldest first. -/
def runTicks (ticks : List TimerTick) (w : MainWindow) : MainWindow :=
  ticks.foldl (fun w t => t.run w) w

/-- A tick at which no other handler ran and every collaborator returns zero. -/
def idleTick : TimerTick := ⟨id, 0, 0, ⟨0⟩, false, false⟩

/-- The data of the four items the constructor adds to `ScalecomboBox` (lines 206-209),
by index; an index without item yields an invalid `QVariant`, whose `toInt()` is 0. -/
def ScalecomboBox_itemData (index : Int) : Int :=
  if index = 0 then 10
  else if index = 1 then 5
  else if index = 2 then 3
  else if index = 3 then 1
  else 0

/-- `MainWindow::OnVertScaleChanged(int index)`.  `count` is `ui->ScalecomboBox->count()`.
`m_MaxdB`, `m_dBStepSize` and the two locals are `int`: sums, differences and products
wrap around at 32 bits (`int_add`, `int_sub`, `int_mul`), and `/` is the truncating
division `int_div` (for a step of 0, which only an index without item yields, the C++
division is undefined and `Int.tdiv` gives 0).  The calls on the spin box and the plot are
recorded in the call log; a signal the spin box emits in response is a separate handler
invocation. -/
def OnVertScaleChanged (count : Int) (w : MainWindow) (index : Int) : MainWindow :=
  if count ≠ 4 then w
  else
    let w := { w with m_VertScaleIndex := index }
    let LastdBStepsize := w.m_dBStepSize
    let LastMaxdB := w.m_MaxdB
    let w := { w with m_dBStepSize := ScalecomboBox_itemData w.m_VertScaleIndex }
    let w := w.call (.PlotSetdBStepSize w.m_dBStepSize)
    let w := w.call (.MaxdBSetSingleStep w.m_dBStepSize)
    let w := w.call .MaxdBSetMinimum
    let w := w.call .MaxdBSetMaximum
    let w := if w.m_dBStepSize ≠ LastdBStepsize then
        let w := { w with
          m_MaxdB := int_add LastMaxdB (int_mul 11 (int_sub w.m_dBStepSize LastdBStepsize)) }
        let w := { w with
          m_MaxdB := int_mul (int_div w.m_MaxdB w.m_dBStepSize) w.m_dBStepSize }
        w
      else w
    let w := w.call (.MaxdBSetValue w.m_MaxdB)
    let w := w.call (.PlotSetMaxdB w.m_MaxdB)
    let w := w.call .UpdateOverlay
    w

/-! ## mainwindow.cpp : persisted settings -/

/-- The values a `QVariant` holds in the modelled settings code. -/
inductive QVariant where
  | int (v : Int)
  | bool (b : Bool)
  deriving DecidableEq, Repr

namespace QVariant

/-- `QVariant::toInt()`. -/
def toInt : QVariant → Int
  | .int v => v
  | .bool b => if b then 1 else 0

/-- `QVariant::toBool()`. -/
def toBool : QVariant → Bool
  | .int v => decide (v ≠ 0)
  | .bool b => b

/-- `QVariant::toUInt()`: the held `int` converted to `unsigned int`. -/
def toUInt : QVariant → Int
  | .int v => v % 2 ^ 32
  | .bool b => if b then 1 else 0

end QVariant

/-- A key of the settings store: the array index in effect (`setArrayIndex`, `none`
outside an array), the group or array name (`beginGroup`, `beginWriteArray`,
`beginReadArray`) and the name passed to `setValue` / `value`. -/
structure SettingsKey where
  index : Option Int
  group : String
  name : String
  deriving DecidableEq, Repr

/-- The settings store (`QSettings`) as a map from keys to values. -/
structure QSettings where
  entries : SettingsKey → Option QVariant

namespace QSettings

/-- `QSettings::setValue(key, value)`. -/
def setValue (s : QSettings) (key : SettingsKey) (value : QVariant) : QSettings :=
  ⟨fun k => if k = key then some value else s.entries k⟩

/-- `QSettings::value(key, defaultValue)`. -/
def value (s : QSettings) (key : SettingsKey) (defaultValue : QVariant) : QVariant :=
  (s.entries key).getD defaultValue

end QSettings

/-- A store without entries. -/
def emptySettings : QSettings := ⟨fun _ => none⟩

/-- The values `i` takes in `for (int i = 0; i < NUM_DEMODS; i++)`. -/
def demodLoop : List Int := (List.range NUM_DEMODS.toNat).map Int.ofNat

/-- One iteration of the loop of `MainWindow::writeSettings()` that saves the demodulator
settings (lines 420-432): the twelve `setValue` calls for array index `i`. -/
def writeSettings_Demod_entry (w : MainWindow) (i : Int) (s : QSettings) : QSettings :=
  let s := s.setValue ⟨some i, "Demod", "HiCut"⟩ (.int (w.m_DemodSettings i).HiCut)
  let s := s.setValue ⟨some i, "Demod", "LowCut"⟩ (.int (w.m_DemodSettings i).LowCut)
  let s := s.setValue ⟨some i, "Demod", "FreqClickResolution"⟩ (.int (w.m_DemodSettings i).FreqClickResolution)
  let s := s.setValue ⟨some i, "Demod", "FilterClickResolution"⟩ (.int (w.m_DemodSettings i).FilterClickResolution)
  let s := s.setValue ⟨some i, "Demod", "Offset"⟩ (.int (w.m_DemodSettings i).Offset)
  let s := s.setValue ⟨some i, "Demod", "SquelchValue"⟩ (.int (w.m_DemodSettings i).SquelchValue)
  let s := s.setValue ⟨some i, "Demod", "AgcSlope"⟩ (.int (w.m_DemodSettings i).AgcSlope)
  let s := s.setValue ⟨some i, "Demod", "AgcThresh"⟩ (.int (w.m_DemodSettings i).AgcThresh)
  let s := s.setValue ⟨some i, "Demod", "AgcManualGain"⟩ (.int (w.m_DemodSettings i).AgcManualGain)
  let s := s.setValue ⟨some i, "Demod", "AgcDecay"⟩ (.int (w.m_DemodSettings i).AgcDecay)
  let s := s.setValue ⟨some i, "Demod", "AgcOn"⟩ (.bool (w.m_DemodSettings i).AgcOn)
  let s := s.setValue ⟨some i, "Demod", "AgcHangOn"⟩ (.bool (w.m_DemodSettings i).AgcHangOn)
  s

/-- The `Demod` array part of `MainWindow::writeSettings()` (lines 416-434).  The
bookkeeping `QSettings` does on its own for an array is not part of the model. -/
def writeSettings_Demod (w : MainWindow) (s : QSettings) : QSettings :=
  demodLoop.foldl (fun s i => writeSettings_Demod_entry w i s) s

/-- One iteration of the loop of `MainWindow::readSettings()` that loads the demodulator
settings (lines 537-548): the eleven assignments for array index `i`. -/
def readSettings_Demod_entry (s : QSettings) (i : Int) (w : MainWindow) : MainWindow :=
  let w := w.assign i (fun d => { d with HiCut :=
    (s.value ⟨some i, "Demod", "HiCut"⟩ (.int 5000)).toInt })
  let w := w.assign i (fun d => { d with LowCut :=
    (s.value ⟨some i, "Demod", "LowCut"⟩ (.int (-5000))).toInt })
  let w := w.assign i (fun d => { d with FreqClickResolution :=
    (s.value ⟨some i, "Demod", "FreqClickResolution"⟩ (.int (w.m_DemodSettings i).DefFreqClickResolution)).toInt })
  let w := w.assign i (fun d => { d with Offset :=
    (s.value ⟨some i, "Demod", "Offset"⟩ (.int 0)).toInt })
  let w := w.assign i (fun d => { d with SquelchValue :=
    (s.value ⟨some i, "Demod", "SquelchValue"⟩ (.int (-160))).toInt })
  let w := w.assign i (fun d => { d with AgcSlope :=
    (s.value ⟨some i, "Demod", "AgcSlope"⟩ (.int 0)).toInt })
  let w := w.assign i (fun d => { d with AgcThresh :=
    (s.value ⟨some i, "Demod", "AgcThresh"⟩ (.int (-100))).toInt })
  let w := w.assign i (fun d => { d with AgcManualGain :=
    (s.value ⟨some i, "Demod", "AgcManualGain"⟩ (.int 30)).toInt })
  let w := w.assign i (fun d => { d with AgcDecay :=
    (s.value ⟨some i, "Demod", "AgcDecay"⟩ (.int 200)).toInt })
  let w := w.assign i (fun d => { d with AgcOn :=
    (s.value ⟨some i, "Demod", "AgcOn"⟩ (.bool true)).toBool })
  let w := w.assign i (fun d => { d with AgcHangOn :=
    (s.value ⟨some i, "Demod", "AgcHangOn"⟩ (.bool false)).toBool })
  w

/-- The `Demod` array part of `MainWindow::readSettings()` (lines 533-550). -/
def readSettings_Demod (s : QSettings) (w : MainWindow) : MainWindow :=
  demodLoop.foldl (fun w i => readSettings_Demod_entry s i w) w

/-- The two frequency lines of `MainWindow::writeSettings()` (lines 337 and 383):
`setValue("CenterFrequency", (int)m_CenterFrequency)` and
`setValue("DemodFrequency", (int)m_DemodFrequency)`, in the group `Common`. -/
def writeSettings_Frequencies (w : MainWindow) (s : QSettings) : QSettings :=
  let s := s.setValue ⟨none, "Common", "CenterFrequency"⟩ (.int (wrap32 w.m_CenterFrequency))
  let s := s.setValue ⟨none, "Common", "DemodFrequency"⟩ (.int (wrap32 w.m_DemodFrequency))
  s

/-- The two frequency lines of `MainWindow::readSettings()` (lines 456 and 505):
`m_CenterFrequency = (qint64)settings.value("CenterFrequency", 15000000).toUInt()` and
the same for `m_DemodFrequency`. -/
def readSettings_Frequencies (s : QSettings) (w : MainWindow) : MainWindow :=
  let w := { w with m_CenterFrequency :=
    (s.value ⟨none, "Common", "CenterFrequency"⟩ (.int 15000000)).toUInt }
  let w := { w with m_DemodFrequency :=
    (s.value ⟨none, "Common", "DemodFrequency"⟩ (.int 15000000)).toUInt }
  w

/-! ## filetxdlg.cpp -/

/-- `tICpx32`: a complex sample of two `qint32` parts (declared outside the modelled
sources). -/
structure tICpx32 where
  re : Int
  im : Int
  deriving DecidableEq, Repr

/-- The data message `SendIQDataBlk` hands to `SendUdpMsg`: the header word, the sequence
word, the payload bytes written to `DataBuf` and the length passed.  The widths of the
header and sequence fields of `tASCPDataMsg` are declared outside the modelled sources;
the values are recorded as computed. -/
structure TxDataMsg where
  Hdr : Int
  Sequence : Int
  DataBuf : List Int
  Length : Int
  deriving DecidableEq, Repr

/-- The members of `CFileTxDlg` used by the modelled functions.  `m_pSdrInterface` tells
whether the pointer is non-null, `Gen` is the state of the `CDataModifier` member, `sent`
lists the messages handed to `SendUdpMsg`, oldest first. -/
structure CFileTxDlg (Gen : Type) where
  m_pSdrInterface : Bool
  m_SeqNumber : Int
  m_DataModifier : Gen
  sent : List TxDataMsg

/-- The six bytes one loop iteration of `SendIQDataBlk` writes for a sample (lines
248-254): `(x>>24) & 0xFF`, `(x>>16) & 0xFF`, `(x>>8) & 0xFF` for `re`, then for `im`. -/
def iqBytes (x : tICpx32) : List Int :=
  [(x.re / 2 ^ 24) % 256, (x.re / 2 ^ 16) % 256, (x.re / 2 ^ 8) % 256,
   (x.im / 2 ^ 24) % 256, (x.im / 2 ^ 16) % 256, (x.im / 2 ^ 8) % 256]

/-- The loop `for (int j = 0; j < NumSamples; j++)` of `SendIQDataBlk`, from sample `j`
on, with the bytes written to `DataBuf` so far. -/
def iqLoop (pData : Nat → tICpx32) : Nat → Nat → List Int → List Int
  | 0, _, DataBuf => DataBuf
  | n + 1, j, DataBuf => iqLoop pData n (j + 1) (DataBuf ++ iqBytes (pData j))

/-- The three most significant bytes of the 32-bit two's-complement representation of
`x`, most significant first (the words of the claim about `SendIQDataBlk`). -/
def msb3 (x : Int) : List Int :=
  [(x % 2 ^ 32) / 2 ^ 24, ((x % 2 ^ 32) / 2 ^ 16) % 256, ((x % 2 ^ 32) / 2 ^ 8) % 256]

namespace CFileTxDlg

variable {Gen : Type}

/-- `CFileTxDlg::SendIQDataBlk(tICpx32* pData, int NumSamples)`.  `pData` is the content of
the sample buffer by position; `TYPE_TARG_DATA_ITEM0` is the message type constant, which
is declared outside the modelled sources. -/
def SendIQDataBlk (TYPE_TARG_DATA_ITEM0 : Int) (d : CFileTxDlg Gen) (pData : Nat → tICpx32)
    (NumSamples : Int) : Int × CFileTxDlg Gen :=
  let DataBuf := iqLoop pData NumSamples.toNat 0 []
  let len : Int := DataBuf.length
  let Hdr := TYPE_TARG_DATA_ITEM0 * 2 ^ 8
  let Hdr := Hdr + (len + 4)
  let Sequence := d.m_SeqNumber
  let d := { d with m_SeqNumber := d.m_SeqNumber + 1 }
  let d := if d.m_pSdrInterface then
      { d with sent := d.sent ++ [⟨Hdr, Sequence, DataBuf, len + 4⟩] }
    else d
  (len, d)

/-- `CFileTxDlg::GenerateTestData(tICpx32* pBuf, int NumSamples)`.  The samples come from
the floating-point sweep generator `CDataModifier`, which is outside the modelled
sources: `generate` gives the buffer content it produces and its new state. -/
def GenerateTestData (generate : Gen → Int → (Nat → tICpx32) × Gen) (d : CFileTxDlg Gen)
    (NumSamples : Int) : (Nat → tICpx32) × CFileTxDlg Gen :=
  let r := generate d.m_DataModifier NumSamples
  (r.1, { d with m_DataModifier := r.2 })

/-- The refill loop of `NewTxMsgSlot` (lines 183-188):
`while (BytesAvail >= 240*6) { GenerateTestData; sent = SendIQDataBlk; BytesAvail -= sent; }`.
`fuel` bounds the number of iterations; the result is the final `BytesAvail` and dialog. -/
def refillLoop (TYPE_TARG_DATA_ITEM0 : Int) (generate : Gen → Int → (Nat → tICpx32) × Gen) :
    Nat → Int → CFileTxDlg Gen → Int × CFileTxDlg Gen
  | 0, BytesAvail, d => (BytesAvail, d)
  | fuel + 1, BytesAvail, d =>
    if BytesAvail ≥ 240 * 6 then
      let g := GenerateTestData generate d 240
      let r := SendIQDataBlk TYPE_TARG_DATA_ITEM0 g.2 g.1 240
      refillLoop TYPE_TARG_DATA_ITEM0 generate fuel (BytesAvail - r.1) r.2
    else (BytesAvail, d)

/-- `CFileTxDlg::NewTxMsgSlot` for a `TYPE_DATA_ITEM_ACK` message reporting `BytesAvail`
bytes of FIFO space (lines 146-147 and 177-190): with a null `m_pSdrInterface` the function
returns before the message is read; otherwise the refill loop runs.  The result is the
final `BytesAvail` and dialog.  The loop is given `BytesAvail.toNat` iterations of fuel. -/
def NewTxMsgSlot_ack (TYPE_TARG_DATA_ITEM0 : Int)
    (generate : Gen → Int → (Nat → tICpx32) × Gen) (d : CFileTxDlg Gen) (BytesAvail : Int) :
    Int × CFileTxDlg Gen :=
  if ¬ d.m_pSdrInterface then (BytesAvail, d)
  else refillLoop TYPE_TARG_DATA_ITEM0 generate BytesAvail.toNat BytesAvail d

end CFileTxDlg

/-- A dialog with a non-null interface pointer, sequence number 0 and nothing sent. -/
def zeroDialog : CFileTxDlg Unit := ⟨true, 0, (), []⟩

/-- How the copy loop of `on_pushButtonStart_clicked` was left. -/
inductive CopyExit where
  | finished
  | writeError
  | readError
  | endOfData
  deriving DecidableEq, Repr

/-- The locals of the copy loop of `on_pushButtonStart_clicked`: `sampleswritten`, the
number of loop bodies started, the block sizes `FileWriter.Write` accepted so far, and how
the loop was left (`none` while it is running). -/
structure CopyState where
  sampleswritten : Int
  iterations : Nat
  written : List Int
  exit : Option CopyExit
  deriving DecidableEq, Repr

/-- The copy loop of `CFileTxDlg::on_pushButtonStart_clicked` (lines 91-117).  `N` is the
value of `m_FileReader.GetNumberSamples()`, `reads k` the value `GetNextDataBlock` returns
in loop body `k`, `writes k` the value `FileWriter.Write` returns there; `fuel` bounds the
number of loop bodies.  `sampleswritten` is an `int`: `sampleswritten += samplesread` wraps
around at 32 bits (`int_add`).  `written` lists the block sizes passed to a successful
`FileWriter.Write`, oldest first. -/
def copyLoop (N : Int) (reads : Nat → Int) (writes : Nat → Bool) :
    Nat → CopyState → CopyState
  | 0, st => st
  | fuel + 1, st =>
    if st.sampleswritten < N then
      let samplesread := reads st.iterations
      if samplesread > 0 then
        if ¬ writes st.iterations then
          { st with iterations := st.iterations + 1, exit := some .writeError }
        else
          copyLoop N reads writes fuel
            { st with
              sampleswritten := int_add st.sampleswritten samplesread,
              iterations := st.iterations + 1,
              written := st.written ++ [samplesread] }
      else
        { st with
          iterations := st.iterations + 1,
          exit := some (if samplesread < 0 then .readError else .endOfData) }
    else { st with exit := some .finished }

/-- `CFileTxDlg::on_pushButtonStart_clicked()`: `none` when the reader or the writer cannot
be opened, else the state of the copy loop from `sampleswritten = 0` after at most
`max(N, 0) + 1` evaluations of the loop condition; a state whose `exit` is `none` is a
loop still running after that many. -/
def on_pushButtonStart_clicked (readerOpens writerOpens : Bool) (N : Int)
    (reads : Nat → Int) (writes : Nat → Bool) : Option CopyState :=
  if readerOpens then
    if ¬ writerOpens then none
    else some (copyLoop N reads writes (N.toNat + 1) ⟨0, 0, [], none⟩)
  else none

/-- What the claim about the copy loop says of a state `r` in which the loop was left
after `m` blocks were written: the blocks written are the first `m` blocks the reader
returned, each positive and accepted by the writer; `sampleswritten` is their sum; the
number of loop bodies is at most `max(N, 0)`; and the loop was left through its condition
(`N <= sampleswritten`), or in body `m` through a failed write, a read error or the end
of the data. -/
def CopyOutcome (N : Int) (reads : Nat → Int) (writes : Nat → Bool) (m : Nat)
    (r : CopyState) : Prop :=
  r.written = (List.range m).map reads ∧
  (∀ k, k < m → 0 < reads k ∧ writes k = true) ∧
  r.sampleswritten = r.written.sum ∧
  (r.iterations : Int) ≤ max N 0 ∧
  ((r.exit = some CopyExit.finished ∧ r.iterations = m ∧ N ≤ r.sampleswritten) ∨
   (r.exit = some CopyExit.writeError ∧ r.iterations = m + 1 ∧ 0 < reads m ∧
      writes m = false ∧ r.sampleswritten < N) ∨
   (r.exit = some CopyExit.readError ∧ r.iterations = m + 1 ∧ reads m < 0 ∧
      r.sampleswritten < N) ∨
   (r.exit = some CopyExit.endOfData ∧ r.iterations = m + 1 ∧ reads m = 0 ∧
      r.sampleswritten < N))

/-! ## demodulator.h : CDemodulator -/

/-- Modelled from the spec: the signal meter (`CSMeter`; `smeter.h` is not part of the
sources).  It "maintains two independently time-constant-filtered statistics: a fast
peak/envelope value and a slower running average". -/
structure CSMeter where
  peak : TYPEREAL
  ave : TYPEREAL

namespace CSMeter

/-- Modelled from the spec: `CSMeter::GetPeak()`, which `smeter.h` (not part of the
sources) declares.  The meter values are "exposed as pure reads; no side effects on the
signal path": the read returns the peak statistic and the meter as it was. -/
def GetPeak (m : CSMeter) : TYPEREAL × CSMeter := (m.peak, m)

/-- Modelled from the spec: `CSMeter::GetAve()`, in the same way as `GetPeak`. -/
def GetAve (m : CSMeter) : TYPEREAL × CSMeter := (m.ave, m)

end CSMeter

/-- The six demodulator classes `CDemodulator` holds a pointer to. -/
inductive DemodClass where
  | CAmDemod
  | CSamDemod
  | CFmDemod
  | CWFmDemod
  | CPskDemod
  | CSsbDemod
  deriving DecidableEq, Repr

/-- Construction (`new`) or destruction (`delete`) of a demodulator object. -/
inductive HeapEvent where
  | new (c : DemodClass)
  | delete (c : DemodClass)
  deriving DecidableEq, Repr

/-- A demodulator object of a class other than `CWFmDemod`: the sample rate its
constructor was given. -/
structure DemodObject where
  samplerate : TYPEREAL

/-- A call `CDemodulator` makes on its member `m_Mutex` (`lock`, `unlock`) or on the
frequency translator `m_DownConvert` (`SetCwOffset`, `SetFrequency`). -/
inductive DemodCall where
  | Mutex_lock
  | Mutex_unlock
  | SetCwOffset (offset : TYPEREAL)
  | SetFrequency (Freq : TYPEREAL)
  deriving DecidableEq

/-- The members of `CDemodulator` that the modelled member functions read or write.
`WFm` is the state of a `CWFmDemod` object (`wfmdemod.h` is not part of the modelled
sources); a pointer member is `none` for a null pointer.  `heap` records the demodulator
objects constructed and destroyed so far, oldest first; `calls` records the calls made on
`m_Mutex` and `m_DownConvert`, oldest first. -/
structure CDemodulator (WFm : Type) where
  m_DemodInfo : tDemodInfo
  m_DemodMode : Int
  m_pWFmDemod : Option WFm
  m_pAmDemod : Option DemodObject := none
  m_pSamDemod : Option DemodObject := none
  m_pFmDemod : Option DemodObject := none
  m_pPskDemod : Option DemodObject := none
  m_pSsbDemod : Option DemodObject := none
  m_SMeter : CSMeter := ⟨0, 0⟩
  m_InputRate : TYPEREAL := 0
  m_DownConverterOutputRate : TYPEREAL := 0
  m_DemodOutputRate : TYPEREAL := 0
  m_DesiredMaxOutputBandwidth : TYPEREAL := 0
  heap : List HeapEvent := []
  m_CW_Offset : TYPEREAL := 0
  calls : List DemodCall := []

/-- The failures of the specification's error taxonomy. -/
inductive DemodError where
  | ConfigurationError
  | CapacityError
  | StateError
  deriving DecidableEq, Repr

/-- Modelled from the spec: the decimation loop of the frequency translator (class
`CDownConvert`, not part of the sources): "a cascade of decimating low-pass filter
stages", "each halving" the rate.  A further stage is added as long as the halved rate
`f / 2` is still at least the bound `b`; `fuel` bounds the number of stages. -/
def decimate : Nat → TYPEREAL → TYPEREAL → TYPEREAL
  | 0, f, _ => f
  | fuel + 1, f, b => if b ≤ f / 2 then decimate fuel (f / 2) b else f

/-- Modelled from the spec: the output rate the frequency translator selects for an
input rate and a desired output bandwidth (`CDownConvert`, not part of the sources): "the
cascade's total decimation factor is chosen so the final rate is the smallest rate ≥ 2×
the desired output bandwidth".  The fuel `⌈InRate / (2 MaxBW)⌉` is more than the number
of halvings that keep the rate at or above `2 MaxBW`. -/
def SetDataRate (InRate MaxBW : TYPEREAL) : TYPEREAL :=
  decimate ⌈InRate / (2 * MaxBW)⌉₊ InRate (2 * MaxBW)

/-- Modelled from the spec: the demodulator class implementing a mode.  The spec's
demodulator bank has one implementation each for envelope AM, synchronous AM,
narrowband FM and wideband FM, one for single-sideband and CW, and one for "phase /
frequency-shift digital demodulation"; a mode outside the enumeration has none. -/
def implementing (Mode : Int) : Option DemodClass :=
  if Mode = DEMOD_AM then some .CAmDemod
  else if Mode = DEMOD_SAM then some .CSamDemod
  else if Mode = DEMOD_FM then some .CFmDemod
  else if Mode = DEMOD_WFM then some .CWFmDemod
  else if Mode = DEMOD_USB ∨ Mode = DEMOD_LSB ∨ Mode = DEMOD_CWU ∨ Mode = DEMOD_CWL then
    some .CSsbDemod
  else if Mode = DEMOD_PSK ∨ Mode = DEMOD_FSK then some .CPskDemod
  else none

namespace CDemodulator

variable {WFm P G : Type}

/-- `CDemodulator::GetStereoLock(int* pPilotLock)`.  `pPilotLock` is the content of the
memory the caller's pointer gives access to; `wfmGetStereoLock` is
`CWFmDemod::GetStereoLock`, returning its result, the content of that memory afterwards
and the new state of the WFM demodulator. -/
def GetStereoLock (wfmGetStereoLock : WFm → P → Int × P × WFm)
    (d : CDemodulator WFm) (pPilotLock : P) : Int × P × CDemodulator WFm :=
  match d.m_pWFmDemod with
  | some wfm =>
    let r := wfmGetStereoLock wfm pPilotLock
    (r.1, r.2.1, { d with m_pWFmDemod := some r.2.2 })
  | none => (0, pPilotLock, d)

/-- `CDemodulator::GetNextRdsGroupData(tRDS_GROUPS* pGroupData)`, with
`wfmGetNextRdsGroupData` standing for `CWFmDemod::GetNextRdsGroupData` in the same way. -/
def GetNextRdsGroupData (wfmGetNextRdsGroupData : WFm → G → Int × G × WFm)
    (d : CDemodulator WFm) (pGroupData : G) : Int × G × CDemodulator WFm :=
  match d.m_pWFmDemod with
  | some wfm =>
    let r := wfmGetNextRdsGroupData wfm pGroupData
    (r.1, r.2.1, { d with m_pWFmDemod := some r.2.2 })
  | none => (0, pGroupData, d)

/-- `CDemodulator::SetDemodFreq(TYPEREAL Freq)` (demodulator.h lines 105-106):
`m_DownConvert.SetCwOffset(m_CW_Offset); m_DownConvert.SetFrequency(Freq);`. -/
def SetDemodFreq (d : CDemodulator WFm) (Freq : TYPEREAL) : CDemodulator WFm :=
  { d with calls := d.calls ++ [.SetCwOffset d.m_CW_Offset, .SetFrequency Freq] }

/-- `CDemodulator::GetSMeterPeak()`: `return m_SMeter.GetPeak();`. -/
def GetSMeterPeak (d : CDemodulator WFm) : TYPEREAL × CDemodulator WFm :=
  let r := d.m_SMeter.GetPeak
  (r.1, { d with m_SMeter := r.2 })

/-- `CDemodulator::GetSMeterAve()`: `return m_SMeter.GetAve();`. -/
def GetSMeterAve (d : CDemodulator WFm) : TYPEREAL × CDemodulator WFm :=
  let r := d.m_SMeter.GetAve
  (r.1, { d with m_SMeter := r.2 })

/-- A sequence of meter reads, `true` for `GetSMeterPeak` and `false` for
`GetSMeterAve`, with nothing else in between. -/
def readMeters (reads : List Bool) (d : CDemodulator WFm) : CDemodulator WFm :=
  reads.foldl (fun d peak => if peak then d.GetSMeterPeak.2 else d.GetSMeterAve.2) d

/-- The classes of the demodulator objects that exist (non-null pointer members), in the
order of the members' declaration. -/
def liveDemods (d : CDemodulator WFm) : List DemodClass :=
  (if d.m_pAmDemod.isSome then [DemodClass.CAmDemod] else []) ++
  (if d.m_pSamDemod.isSome then [DemodClass.CSamDemod] else []) ++
  (if d.m_pFmDemod.isSome then [DemodClass.CFmDemod] else []) ++
  (if d.m_pWFmDemod.isSome then [DemodClass.CWFmDemod] else []) ++
  (if d.m_pPskDemod.isSome then [DemodClass.CPskDemod] else []) ++
  (if d.m_pSsbDemod.isSome then [DemodClass.CSsbDemod] else [])

/-- Modelled from the spec: `CDemodulator::DeleteAllDemods()`, declared in
`demodulator.h` without body.  "Switching modes destroys the previous demodulator": every
object that exists is deleted and its pointer cleared. -/
def DeleteAllDemods (d : CDemodulator WFm) : CDemodulator WFm :=
  { d with
    m_pAmDemod := none, m_pSamDemod := none, m_pFmDemod := none, m_pWFmDemod := none,
    m_pPskDemod := none, m_pSsbDemod := none,
    heap := d.heap ++ (liveDemods d).map HeapEvent.delete }

/-- Modelled from the spec: the construction step of `CDemodulator::SetDemod`:
"constructs the new one bound to the current translator output rate".  `newWFm` is the
constructor of `CWFmDemod`. -/
def construct (newWFm : TYPEREAL → WFm) (d : CDemodulator WFm) (Mode : Int) :
    CDemodulator WFm :=
  match implementing Mode with
  | some .CAmDemod => { d with
      m_pAmDemod := some ⟨d.m_DownConverterOutputRate⟩, heap := d.heap ++ [.new .CAmDemod] }
  | some .CSamDemod => { d with
      m_pSamDemod := some ⟨d.m_DownConverterOutputRate⟩, heap := d.heap ++ [.new .CSamDemod] }
  | some .CFmDemod => { d with
      m_pFmDemod := some ⟨d.m_DownConverterOutputRate⟩, heap := d.heap ++ [.new .CFmDemod] }
  | some .CWFmDemod => { d with
      m_pWFmDemod := some (newWFm d.m_DownConverterOutputRate),
      heap := d.heap ++ [.new .CWFmDemod] }
  | some .CPskDemod => { d with
      m_pPskDemod := some ⟨d.m_DownConverterOutputRate⟩, heap := d.heap ++ [.new .CPskDemod] }
  | some .CSsbDemod => { d with
      m_pSsbDemod := some ⟨d.m_DownConverterOutputRate⟩, heap := d.heap ++ [.new .CSsbDemod] }
  | none => d

/-- Modelled from the spec: the body of `CDemodulator::SetDemod` is not part of the
sources; `demodulator.h` only declares `void SetDemod(int Mode, tDemodInfo
CurrentDemodInfo)`.  Following the spec (the per-mode configuration is "passed by value
into the Orchestrator on each mode activation and edge change"), the call receives a copy
of the configuration, which the demodulator keeps in `m_DemodInfo` together with the
mode in `m_DemodMode`; "switching modes destroys the previous demodulator and constructs
the new one bound to the current translator output rate". -/
def SetDemod (newWFm : TYPEREAL → WFm) (d : CDemodulator WFm) (Mode : Int)
    (CurrentDemodInfo : tDemodInfo) : CDemodulator WFm :=
  { construct newWFm (DeleteAllDemods d) Mode with
    m_DemodMode := Mode, m_DemodInfo := CurrentDemodInfo }

/-- Modelled from the spec: `CDemodulator::SetInputSampleRate`, declared in
`demodulator.h` without body: it "rebuilds the translator's decimation cascade sized to
the new rate", for the desired output bandwidth currently held. -/
def SetInputSampleRate (d : CDemodulator WFm) (InputRate : TYPEREAL) : CDemodulator WFm :=
  { d with
    m_InputRate := InputRate,
    m_DownConverterOutputRate := SetDataRate InputRate d.m_DesiredMaxOutputBandwidth }

/-- Modelled from the spec: `CDemodulator::ProcessData`, declared in `demodulator.h`
without body (both overloads; `Out` is `TYPEREAL` or `TYPECPX`).  The input is "a complex
sample block of caller-determined length (≤ a fixed maximum)"; "inputs exceeding the bound
are a caller contract violation (fails with CapacityError), not silently truncated".
`pipeline` stands for the numeric stages applied to an accepted block; it yields the
output block and the new demodulator state. -/
def ProcessData {Out : Type}
    (pipeline : CDemodulator WFm → List TYPECPX → List Out × CDemodulator WFm)
    (d : CDemodulator WFm) (InLength : Int) (pInData : List TYPECPX) :
    Except DemodError (List Out × CDemodulator WFm) :=
  if InLength > MAX_INBUFSIZE then .error .CapacityError
  else .ok (pipeline d (pInData.take InLength.toNat))

end CDemodulator

/-- The statement `m_pSdrInterface->SetDemod(Mode, m_DemodSettings[Mode])` of the control
layer, acting on the window (the caller, owner of `m_DemodSettings`) and on the
demodulator behind the interface (the callee). -/
def callSetDemod {WFm : Type} (newWFm : TYPEREAL → WFm) (s : MainWindow × CDemodulator WFm)
    (Mode : Int) : MainWindow × CDemodulator WFm :=
  (s.1.call (.SetDemod Mode (s.1.m_DemodSettings Mode)),
   s.2.SetDemod newWFm Mode (s.1.m_DemodSettings Mode))

/-- The calls of a log that change the translator while `m_Mutex` is not held; `held`
tells whether the mutex is held where the log starts. -/
def unlockedTranslatorCalls : Bool → List DemodCall → List DemodCall
  | _, [] => []
  | _, .Mutex_lock :: l => unlockedTranslatorCalls true l
  | _, .Mutex_unlock :: l => unlockedTranslatorCalls false l
  | held, .SetCwOffset x :: l =>
    if held then unlockedTranslatorCalls held l
    else .SetCwOffset x :: unlockedTranslatorCalls held l
  | held, .SetFrequency x :: l =>
    if held then unlockedTranslatorCalls held l
    else .SetFrequency x :: unlockedTranslatorCalls held l

/-! ## samdemod.h : CSamDemod -/

/-- The members of `CSamDemod`; `CFir` is the type of the filter member (`fir.h` is not
part of the modelled sources). -/
structure CSamDemod (CFir : Type) where
  m_SampleRate : TYPEREAL
  m_z1 : TYPEREAL
  m_y1 : TYPEREAL
  m_NcoPhase : TYPEREAL
  m_NcoFreq : TYPEREAL
  m_NcoAcc : TYPEREAL
  m_NcoLLimit : TYPEREAL
  m_NcoHLimit : TYPEREAL
  m_PllAlpha : TYPEREAL
  m_PllBeta : TYPEREAL
  m_Fir : CFir

namespace CSamDemod

variable {CFir Out : Type}

/-- The sample loop `for (int i = 0; i < n; i++)` over the input buffer from position
`i` on: one output sample per input sample, produced by `pll`. -/
def sampleLoop (pll : CSamDemod CFir → TYPECPX → Out × CSamDemod CFir) :
    Nat → Nat → (Nat → TYPECPX) → CSamDemod CFir → List Out × CSamDemod CFir
  | 0, _, _, s => ([], s)
  | n + 1, i, pInData, s =>
    let r := pll s (pInData i)
    let rest := sampleLoop pll n (i + 1) pInData r.2
    (r.1 :: rest.1, rest.2)

/-- Modelled from the spec: `CSamDemod::ProcessData`, declared in `samdemod.h` without
body (both overloads; `Out` is `TYPEREAL` for the mono and `TYPECPX` for the stereo one).
"`Process(inputBlock) → outputBlock`, same block length semantics as input": each of the
`InLength` input samples yields one output sample through the carrier-tracking step `pll`
(its numerics are not part of the model), and the number of samples is returned.
`pInData` is the content of the input buffer by position. -/
def ProcessData (pll : CSamDemod CFir → TYPECPX → Out × CSamDemod CFir)
    (s : CSamDemod CFir) (InLength : Int) (pInData : Nat → TYPECPX) :
    Int × List Out × CSamDemod CFir :=
  let r := sampleLoop pll InLength.toNat 0 pInData s
  (InLength, r.1, r.2)

end CSamDemod

/-- A demodulator with zeroed members and no demodulator object, as a concrete starting
point. -/
def zeroDemodulator : CDemodulator Nat :=
  { m_DemodInfo := zeroDemodInfo, m_DemodMode := DEMOD_AM, m_pWFmDemod := none }

/-- A synchronous-AM demodulator with zeroed members. -/
def zeroSamDemod : CSamDemod Unit :=
  { m_SampleRate := 0, m_z1 := 0, m_y1 := 0, m_NcoPhase := 0, m_NcoFreq := 0, m_NcoAcc := 0,
    m_NcoLLimit := 0, m_NcoHLimit := 0, m_PllAlpha := 0, m_PllBeta := 0, m_Fir := () }

/-! ## The modes named by the specification -/

/-- The ten demodulation modes the specification names in its data model. -/
inductive SpecMode where
  | envelopeAM
  | synchronousAM
  | narrowbandFM
  | widebandFM
  | upperSideband
  | lowerSideband
  | cwUpper
  | cwLower
  | digitalPhase
  | digitalFrequency
  deriving DecidableEq, Repr

/-- The mode constant that `demodulator.h` (lines 52-60) defines for a mode of the
specification; `none` where the header has no constant for the mode. -/
def headerConstant : SpecMode → Option Int
  | .envelopeAM => some DEMOD_AM
  | .synchronousAM => some DEMOD_SAM
  | .narrowbandFM => some DEMOD_FM
  | .upperSideband => some DEMOD_USB
  | .lowerSideband => some DEMOD_LSB
  | .cwUpper => some DEMOD_CWU
  | .cwLower => some DEMOD_CWL
  | .widebandFM => some DEMOD_WFM
  | .digitalPhase => some DEMOD_PSK
  | .digitalFrequency => none

end CuteSdr

namespace CuteSdr

/-! ## Helper lemmas -/

theorem clampCutoffs_eq (d : tDemodInfo) :
    clampCutoffs d = { d with
      LowCut := min (max d.LowCut d.LowCutmin) d.LowCutmax,
      HiCut := min (max d.HiCut d.HiCutmin) d.HiCutmax } := by
  cases d
  simp only [clampCutoffs]
  split_ifs <;> simp_all <;> omega

theorem SetupDemod_setDemodCalls (w : MainWindow) (index : Int) :
    setDemodCalls (SetupDemod w index).calls
      = setDemodCalls w.calls ++ [(index, clampCutoffs (w.m_DemodSettings index))] := by
  simp only [SetupDemod, UpdateInfoBox, MainWindow.call, MainWindow.assign, setDemodCalls]
  split_ifs <;> simp [List.filterMap_append]

theorem SetupDemod_m_DemodSettings (w : MainWindow) (index : Int) (i : Int) :
    (SetupDemod w index).m_DemodSettings i
      = if i = index then clampCutoffs (w.m_DemodSettings index) else w.m_DemodSettings i := by
  simp only [SetupDemod, UpdateInfoBox, MainWindow.call, MainWindow.assign]
  split_ifs <;> simp_all

theorem SetupDemod_m_DemodMode (w : MainWindow) (index : Int) :
    (SetupDemod w index).m_DemodMode = index := by
  simp only [SetupDemod, UpdateInfoBox, MainWindow.call, MainWindow.assign]

theorem InitDemodSettings_calls (w : MainWindow) : (InitDemodSettings w).calls = w.calls := by
  simp only [InitDemodSettings, MainWindow.assign]

theorem InitDemodSettings_limits (w : MainWindow) (mode : Int) (h0 : 0 ≤ mode)
    (h1 : mode < NUM_DEMODS) :
    ((InitDemodSettings w).m_DemodSettings mode).LowCutmin
        ≤ ((InitDemodSettings w).m_DemodSettings mode).LowCutmax ∧
    ((InitDemodSettings w).m_DemodSettings mode).LowCutmax
        < ((InitDemodSettings w).m_DemodSettings mode).HiCutmin ∧
    ((InitDemodSettings w).m_DemodSettings mode).HiCutmin
        ≤ ((InitDemodSettings w).m_DemodSettings mode).HiCutmax := by
  unfold NUM_DEMODS at h1
  interval_cases mode
  · exact ⟨(by decide : (-10000 : Int) ≤ -500), (by decide : (-500 : Int) < 500), (by decide : (500 : Int) ≤ 10000)⟩
  · exact ⟨(by decide : (-10000 : Int) ≤ -100), (by decide : (-100 : Int) < 100), (by decide : (100 : Int) ≤ 10000)⟩
  · exact ⟨(by decide : (-15000 : Int) ≤ -5000), (by decide : (-5000 : Int) < 5000), (by decide : (5000 : Int) ≤ 15000)⟩
  · exact ⟨(by decide : (0 : Int) ≤ 200), (by decide : (200 : Int) < 500), (by decide : (500 : Int) ≤ 20000)⟩
  · exact ⟨(by decide : (-20000 : Int) ≤ -500), (by decide : (-500 : Int) < -200), (by decide : (-200 : Int) ≤ 0)⟩
  · exact ⟨(by decide : (-1000 : Int) ≤ -50), (by decide : (-50 : Int) < 50), (by decide : (50 : Int) ≤ 1000)⟩
  · exact ⟨(by decide : (-1000 : Int) ≤ -50), (by decide : (-50 : Int) < 50), (by decide : (50 : Int) ≤ 1000)⟩
  · exact ⟨(by decide : (-100000 : Int) ≤ -100000), (by decide : (-100000 : Int) < 100000), (by decide : (100000 : Int) ≤ 100000)⟩
  · exact ⟨(by decide : (-200 : Int) ≤ -20), (by decide : (-20 : Int) < 20), (by decide : (20 : Int) ≤ 200)⟩
  · exact ⟨(by decide : (-50 : Int) ≤ -50), (by decide : (-50 : Int) < 50), (by decide : (50 : Int) ≤ 50)⟩

theorem InitDemodSettings_mirror (w : MainWindow) (mode : Int) (h0 : 0 ≤ mode)
    (h1 : mode < NUM_DEMODS)
    (hs : ((InitDemodSettings w).m_DemodSettings mode).Symetric = true) :
    mode ∈ [DEMOD_AM, DEMOD_FM, DEMOD_WFM, DEMOD_PSK, DEMOD_FSK] ∧
    ((InitDemodSettings w).m_DemodSettings mode).LowCutmin
        = -((InitDemodSettings w).m_DemodSettings mode).HiCutmax ∧
    ((InitDemodSettings w).m_DemodSettings mode).LowCutmax
        = -((InitDemodSettings w).m_DemodSettings mode).HiCutmin := by
  unfold NUM_DEMODS at h1
  interval_cases mode
  · exact ⟨by decide, (by decide : (-10000 : Int) = -10000), (by decide : (-500 : Int) = -500)⟩
  · exact absurd hs (by decide : ¬ (false = true))
  · exact ⟨by decide, (by decide : (-15000 : Int) = -15000), (by decide : (-5000 : Int) = -5000)⟩
  · exact absurd hs (by decide : ¬ (false = true))
  · exact absurd hs (by decide : ¬ (false = true))
  · exact absurd hs (by decide : ¬ (false = true))
  · exact absurd hs (by decide : ¬ (false = true))
  · exact ⟨by decide, (by decide : (-100000 : Int) = -100000), (by decide : (-100000 : Int) = -100000)⟩
  · exact ⟨by decide, (by decide : (-200 : Int) = -200), (by decide : (-20 : Int) = -20)⟩
  · exact ⟨by decide, (by decide : (-50 : Int) = -50), (by decide : (-50 : Int) = -50)⟩

theorem wrap32_of_range (x : Int) (h0 : -2 ^ 31 ≤ x) (h1 : x ≤ 2 ^ 31 - 1) : wrap32 x = x := by
  simp only [wrap32]
  norm_num at h0 h1 ⊢
  omega

theorem wrap64_of_range (x : Int) (h0 : -2 ^ 63 ≤ x) (h1 : x < 2 ^ 63) : wrap64 x = x := by
  unfold wrap64
  omega

theorem OnNewLowCutFreq_setDemodCalls (w : MainWindow) (freq : Int) :
    setDemodCalls (OnNewLowCutFreq w freq).calls = setDemodCalls w.calls ++
      [(w.m_DemodMode, { w.m_DemodSettings w.m_DemodMode with LowCut := freq })] := by
  simp [OnNewLowCutFreq, UpdateInfoBox, MainWindow.call, MainWindow.assign, setDemodCalls,
    List.filterMap_append]

theorem OnNewHighCutFreq_setDemodCalls (w : MainWindow) (freq : Int) :
    setDemodCalls (OnNewHighCutFreq w freq).calls = setDemodCalls w.calls ++
      [(w.m_DemodMode, { w.m_DemodSettings w.m_DemodMode with HiCut := freq })] := by
  simp [OnNewHighCutFreq, UpdateInfoBox, MainWindow.call, MainWindow.assign, setDemodCalls,
    List.filterMap_append]

theorem SetupDemod_demodFreqCalls (w : MainWindow) (index : Int) :
    demodFreqCalls (SetupDemod w index).calls
      = demodFreqCalls w.calls ++ [qint64_sub w.m_CenterFrequency w.m_DemodFrequency] := by
  simp only [SetupDemod, UpdateInfoBox, MainWindow.call, MainWindow.assign, demodFreqCalls]
  split_ifs <;> simp [List.filterMap_append]

theorem SetupDemod_frequencies (w : MainWindow) (index : Int) :
    (SetupDemod w index).m_CenterFrequency = w.m_CenterFrequency ∧
    (SetupDemod w index).m_DemodFrequency = w.m_DemodFrequency := by
  simp only [SetupDemod, UpdateInfoBox, MainWindow.call, MainWindow.assign]
  split_ifs <;> simp

theorem assign_m_DemodSettings_ne (w : MainWindow) (index i : Int)
    (f : tDemodInfo → tDemodInfo) (h : i ≠ index) :
    (w.assign index f).m_DemodSettings i = w.m_DemodSettings i := by
  simp [MainWindow.assign, h]

/-! ## C1 - C4 : clamping of the filter edges in `SetupDemod` -/

/-- C1: for every index and every stored entry, `SetupDemod` replaces `LowCut` by
`min (max LowCut LowCutmin) LowCutmax` and `HiCut` by `min (max HiCut HiCutmin) HiCutmax`
in `m_DemodSettings[index]`, leaves the other fields alone, and passes that entry to its
one `SetDemod` call.  When `LowCutmin ≤ LowCutmax` (resp. `HiCutmin ≤ HiCutmax`) the edge
passed lies inside its bounds, and an edge already inside its bounds is unchanged. -/
theorem SetupDemod_clamps_edges (w : MainWindow) (index : Int) :
    ∃ info : tDemodInfo,
      setDemodCalls (SetupDemod w index).calls = setDemodCalls w.calls ++ [(index, info)] ∧
      (SetupDemod w index).m_DemodSettings index = info ∧
      info = { w.m_DemodSettings index with
        LowCut := min (max (w.m_DemodSettings index).LowCut (w.m_DemodSettings index).LowCutmin)
          (w.m_DemodSettings index).LowCutmax,
        HiCut := min (max (w.m_DemodSettings index).HiCut (w.m_DemodSettings index).HiCutmin)
          (w.m_DemodSettings index).HiCutmax } ∧
      ((w.m_DemodSettings index).LowCutmin ≤ (w.m_DemodSettings index).LowCutmax →
        info.LowCutmin ≤ info.LowCut ∧ info.LowCut ≤ info.LowCutmax) ∧
      ((w.m_DemodSettings index).HiCutmin ≤ (w.m_DemodSettings index).HiCutmax →
        info.HiCutmin ≤ info.HiCut ∧ info.HiCut ≤ info.HiCutmax) ∧
      ((w.m_DemodSettings index).LowCutmin ≤ (w.m_DemodSettings index).LowCut →
        (w.m_DemodSettings index).LowCut ≤ (w.m_DemodSettings index).LowCutmax →
        info.LowCut = (w.m_DemodSettings index).LowCut) ∧
      ((w.m_DemodSettings index).HiCutmin ≤ (w.m_DemodSettings index).HiCut →
        (w.m_DemodSettings index).HiCut ≤ (w.m_DemodSettings index).HiCutmax →
        info.HiCut = (w.m_DemodSettings index).HiCut) := by
  refine ⟨clampCutoffs (w.m_DemodSettings index), SetupDemod_setDemodCalls w index, ?_,
    clampCutoffs_eq _, ?_, ?_, ?_, ?_⟩
  · rw [SetupDemod_m_DemodSettings]; simp
  · intro h; rw [clampCutoffs_eq]; simp only []; omega
  · intro h; rw [clampCutoffs_eq]; simp only []; omega
  · intro h h'; rw [clampCutoffs_eq]; simp only []; omega
  · intro h h'; rw [clampCutoffs_eq]; simp only []; omega

/-- Witness of C1: AM limits from `InitDemodSettings`.  Stored edges `0` and `0` are passed
as `-500` and `500`; stored edges `-5000` and `600`, already inside the limits, are
passed unchanged. -/
theorem SetupDemod_clamps_edges_witness :
    (∃ info : tDemodInfo,
      setDemodCalls (SetupDemod (InitDemodSettings zeroWindow) DEMOD_AM).calls
        = [(DEMOD_AM, info)] ∧
      (info.LowCutmin ≤ info.LowCut ∧ info.LowCut ≤ info.LowCutmax) ∧
      (info.HiCutmin ≤ info.HiCut ∧ info.HiCut ≤ info.HiCutmax) ∧
      info.LowCut = -500 ∧ info.HiCut = 500) ∧
    (∃ info : tDemodInfo,
      setDemodCalls (SetupDemod ((InitDemodSettings zeroWindow).assign DEMOD_AM
          (fun d => { d with LowCut := -5000, HiCut := 600 })) DEMOD_AM).calls
        = [(DEMOD_AM, info)] ∧
      info.LowCut = -5000 ∧ info.HiCut = 600) := by
  constructor
  · obtain ⟨info, hc, -, he, hl, hh, -, -⟩ :=
      SetupDemod_clamps_edges (InitDemodSettings zeroWindow) DEMOD_AM
    refine ⟨info, by simpa [InitDemodSettings_calls, zeroWindow, setDemodCalls] using hc,
      hl (by decide), hh (by decide), ?_, ?_⟩
    · rw [he]; decide
    · rw [he]; decide
  · obtain ⟨info, hc, -, -, -, -, hl, hh⟩ :=
      SetupDemod_clamps_edges ((InitDemodSettings zeroWindow).assign DEMOD_AM
        (fun d => { d with LowCut := -5000, HiCut := 600 })) DEMOD_AM
    exact ⟨info, hc, hl (by decide) (by decide), hh (by decide) (by decide)⟩

/-- Counterexample to C2 as stated: in AM mode (limits from `InitDemodSettings`, edges
clamped by `SetupDemod`), `OnNewLowCutFreq(0)` gives `SetDemod` a configuration with
`LowCut = 0` above `LowCutmax = -500`. -/
theorem OnNewLowCutFreq_outside_bounds :
    ∃ info : tDemodInfo,
      (setDemodCalls
        (OnNewLowCutFreq (SetupDemod (InitDemodSettings zeroWindow) DEMOD_AM) 0).calls).getLast?
        = some (DEMOD_AM, info) ∧
      info.LowCut = 0 ∧ info.LowCutmax = -500 ∧
      ¬ (info.LowCutmin ≤ info.LowCut ∧ info.LowCut ≤ info.LowCutmax) :=
  ⟨_, rfl, rfl, rfl, by decide⟩

/-- C2 (amended): `OnNewLowCutFreq(freq)` stores `freq` as the active mode's `LowCut`
without clamping and passes that entry to its one `SetDemod` call, so the configuration
passed has `LowCutmin ≤ LowCut ≤ LowCutmax` exactly when `LowCutmin ≤ freq ≤ LowCutmax`;
`OnNewHighCutFreq(freq)` does the same with `HiCut` and `HiCutmin`, `HiCutmax`. -/
theorem OnNewCutFreq_passes_freq_unclamped (w : MainWindow) (freq : Int) :
    ∃ lo hi : tDemodInfo,
      setDemodCalls (OnNewLowCutFreq w freq).calls
        = setDemodCalls w.calls ++ [(w.m_DemodMode, lo)] ∧
      setDemodCalls (OnNewHighCutFreq w freq).calls
        = setDemodCalls w.calls ++ [(w.m_DemodMode, hi)] ∧
      lo = { w.m_DemodSettings w.m_DemodMode with LowCut := freq } ∧
      hi = { w.m_DemodSettings w.m_DemodMode with HiCut := freq } ∧
      ((lo.LowCutmin ≤ lo.LowCut ∧ lo.LowCut ≤ lo.LowCutmax) ↔
        ((w.m_DemodSettings w.m_DemodMode).LowCutmin ≤ freq ∧
          freq ≤ (w.m_DemodSettings w.m_DemodMode).LowCutmax)) ∧
      ((hi.HiCutmin ≤ hi.HiCut ∧ hi.HiCut ≤ hi.HiCutmax) ↔
        ((w.m_DemodSettings w.m_DemodMode).HiCutmin ≤ freq ∧
          freq ≤ (w.m_DemodSettings w.m_DemodMode).HiCutmax)) :=
  ⟨_, _, OnNewLowCutFreq_setDemodCalls w freq, OnNewHighCutFreq_setDemodCalls w freq, rfl, rfl,
    Iff.rfl, Iff.rfl⟩

/-- C3: with the limits assigned by `InitDemodSettings`, for each of the ten mode
indices `0 .. NUM_DEMODS-1` and every stored pair `LowCut = L`, `HiCut = H`, the
configuration `SetupDemod(mode)` passes to `SetDemod` has `LowCut < HiCut`. -/
theorem SetupDemod_low_lt_high (w : MainWindow) (mode L H : Int)
    (h0 : 0 ≤ mode) (h1 : mode < NUM_DEMODS) :
    ∃ info : tDemodInfo,
      setDemodCalls (SetupDemod ((InitDemodSettings w).assign mode
          (fun d => { d with LowCut := L, HiCut := H })) mode).calls
        = setDemodCalls w.calls ++ [(mode, info)] ∧
      info.LowCut < info.HiCut := by
  refine ⟨clampCutoffs (((InitDemodSettings w).assign mode
      (fun d => { d with LowCut := L, HiCut := H })).m_DemodSettings mode), ?_, ?_⟩
  · rw [SetupDemod_setDemodCalls]
    simp only [MainWindow.assign, InitDemodSettings_calls]
  · obtain ⟨-, hlt, hle⟩ := InitDemodSettings_limits w mode h0 h1
    rw [clampCutoffs_eq]
    simp only [MainWindow.assign, if_true]
    omega

/-- Witness of C3: upper-sideband mode with stored edges 30000 and -30000. -/
theorem SetupDemod_low_lt_high_witness :
    ∃ info : tDemodInfo,
      setDemodCalls (SetupDemod ((InitDemodSettings zeroWindow).assign DEMOD_USB
          (fun d => { d with LowCut := 30000, HiCut := -30000 })) DEMOD_USB).calls
        = setDemodCalls zeroWindow.calls ++ [(DEMOD_USB, info)] ∧
      info.LowCut < info.HiCut :=
  SetupDemod_low_lt_high zeroWindow DEMOD_USB 30000 (-30000) (by decide) (by decide)

/-- Counterexample to C4 as stated: AM has `Symetric` set, and with stored edges
`LowCut = -5000`, `HiCut = 600` (both inside the AM limits) `SetupDemod(DEMOD_AM)` passes
them on unchanged, so `|LowCut| ≠ |HiCut|`. -/
theorem SetupDemod_symmetric_mode_unequal_edges :
    ∃ info : tDemodInfo,
      setDemodCalls (SetupDemod ((InitDemodSettings zeroWindow).assign DEMOD_AM
          (fun d => { d with LowCut := -5000, HiCut := 600 })) DEMOD_AM).calls
        = [(DEMOD_AM, info)] ∧
      info.Symetric = true ∧ info.LowCut = -5000 ∧ info.HiCut = 600 ∧
      ¬ (|info.LowCut| = |info.HiCut|) :=
  ⟨_, rfl, rfl, rfl, rfl, by decide⟩

/-- C4 (amended): for every mode index whose `Symetric` flag is set by
`InitDemodSettings` (these are AM, FM, WFM, PSK and FSK) the limits mirror each other,
and `SetupDemod(mode)` passes edges with `|LowCut| = |HiCut|` (indeed `LowCut = -HiCut`)
whenever the stored edges satisfy `LowCut = -HiCut`, and for WFM and PSK whatever the
stored edges are. -/
theorem SetupDemod_symmetric_edges (w : MainWindow) (mode L H : Int)
    (h0 : 0 ≤ mode) (h1 : mode < NUM_DEMODS)
    (hs : ((InitDemodSettings w).m_DemodSettings mode).Symetric = true)
    (hLH : L = -H ∨ mode = DEMOD_WFM ∨ mode = DEMOD_PSK) :
    mode ∈ [DEMOD_AM, DEMOD_FM, DEMOD_WFM, DEMOD_PSK, DEMOD_FSK] ∧
    ∃ info : tDemodInfo,
      setDemodCalls (SetupDemod ((InitDemodSettings w).assign mode
          (fun d => { d with LowCut := L, HiCut := H })) mode).calls
        = setDemodCalls w.calls ++ [(mode, info)] ∧
      info.Symetric = true ∧ info.LowCut = -info.HiCut ∧ |info.LowCut| = |info.HiCut| := by
  obtain ⟨hmem, hmin, hmax⟩ := InitDemodSettings_mirror w mode h0 h1 hs
  obtain ⟨hle, hlt, hle'⟩ := InitDemodSettings_limits w mode h0 h1
  have key : (clampCutoffs (((InitDemodSettings w).assign mode
      (fun d => { d with LowCut := L, HiCut := H })).m_DemodSettings mode)).LowCut
      = -(clampCutoffs (((InitDemodSettings w).assign mode
      (fun d => { d with LowCut := L, HiCut := H })).m_DemodSettings mode)).HiCut := by
    rw [clampCutoffs_eq]
    simp only [MainWindow.assign, if_true]
    rcases hLH with h | h | h
    · omega
    · subst h
      have e1 : ((InitDemodSettings w).m_DemodSettings DEMOD_WFM).LowCutmin = -100000 := rfl
      have e2 : ((InitDemodSettings w).m_DemodSettings DEMOD_WFM).HiCutmin = 100000 := rfl
      omega
    · subst h
      have e1 : ((InitDemodSettings w).m_DemodSettings DEMOD_PSK).LowCutmin = -50 := rfl
      have e2 : ((InitDemodSettings w).m_DemodSettings DEMOD_PSK).HiCutmin = 50 := rfl
      omega
  refine ⟨hmem, _, ?_, ?_, key, ?_⟩
  · rw [SetupDemod_setDemodCalls]
    simp only [MainWindow.assign, InitDemodSettings_calls]
  · rw [clampCutoffs_eq]
    simpa only [MainWindow.assign, if_true] using hs
  · rw [key, abs_neg]

/-- Witness of C4 (amended): FM mode with stored edges -20000 and 20000. -/
theorem SetupDemod_symmetric_edges_witness :
    DEMOD_FM ∈ [DEMOD_AM, DEMOD_FM, DEMOD_WFM, DEMOD_PSK, DEMOD_FSK] ∧
    ∃ info : tDemodInfo,
      setDemodCalls (SetupDemod ((InitDemodSettings zeroWindow).assign DEMOD_FM
          (fun d => { d with LowCut := -20000, HiCut := 20000 })) DEMOD_FM).calls
        = setDemodCalls zeroWindow.calls ++ [(DEMOD_FM, info)] ∧
      info.Symetric = true ∧ info.LowCut = -info.HiCut ∧ |info.LowCut| = |info.HiCut| :=
  SetupDemod_symmetric_edges zeroWindow DEMOD_FM (-20000) 20000 (by decide) (by decide)
    (by decide) (Or.inl (by decide))

/-! ## C5 : the persisted mode index -/

/-- Counterexample to C5 as stated: with `DemodMode = 10` in the persisted settings the
constructor path makes exactly the calls listed, none of which reports an error, and
both `SetDemod` calls carry the index `10`, which is not below `NUM_DEMODS`. -/
theorem constructorSetup_mode_out_of_range :
    (constructorSetup (readSettings_DemodMode (some 10) (InitDemodSettings zeroWindow))).calls
      = [.qDebug 10, .SetDemodRanges 0 0 0 0 false, .SetHiLowCutFrequencies 0 0,
         .SetFilterClickResolution 0, .UpdateOverlay, .SetDemod 10 zeroDemodInfo,
         .SetDemodFreq 0, .SetInfoText "" 0 0, .SetSquelchPos 0, .SetClickResolution 0,
         .DecodeReset, .SetDemod 10 zeroDemodInfo] ∧
    (constructorSetup (readSettings_DemodMode (some 10)
      (InitDemodSettings zeroWindow))).m_DemodMode = 10 ∧
    ¬ ((0 : Int) ≤ 10 ∧ (10 : Int) < NUM_DEMODS) :=
  ⟨by decide, rfl, by decide⟩

/-- C5 (amended): `readSettings` stores the persisted `DemodMode` integer unchecked
(`DEMOD_AM` when the key is absent), and the constructor's `SetupDemod(m_DemodMode)` and
`SetDemod` calls use exactly that value as index; so the index used lies in
`0 .. NUM_DEMODS-1` exactly when the key is absent or the persisted value lies in that
range. -/
theorem readSettings_mode_used_unchecked (stored : Option Int) (w : MainWindow) :
    (readSettings_DemodMode stored w).m_DemodMode = stored.getD DEMOD_AM ∧
    (constructorSetup (readSettings_DemodMode stored w)).m_DemodMode = stored.getD DEMOD_AM ∧
    (setDemodCalls (constructorSetup (readSettings_DemodMode stored w)).calls).map Prod.fst
      = (setDemodCalls w.calls).map Prod.fst ++ [stored.getD DEMOD_AM, stored.getD DEMOD_AM] ∧
    ((0 ≤ stored.getD DEMOD_AM ∧ stored.getD DEMOD_AM < NUM_DEMODS) ↔
      (stored = none ∨ ∃ v, stored = some v ∧ 0 ≤ v ∧ v < NUM_DEMODS)) := by
  refine ⟨rfl, ?_, ?_, ?_⟩
  · simp only [constructorSetup, MainWindow.call, SetupDemod_m_DemodMode]
    rfl
  · simp only [constructorSetup, MainWindow.call, setDemodCalls, List.filterMap_append]
    have h := SetupDemod_setDemodCalls (readSettings_DemodMode stored w)
      (readSettings_DemodMode stored w).m_DemodMode
    simp only [setDemodCalls] at h
    rw [h]
    simp [SetupDemod_m_DemodMode, readSettings_DemodMode]
  · cases stored with
    | none => simp [DEMOD_AM, NUM_DEMODS]
    | some v => simp

/-! ## C6 : `SetDemod` is called by the handlers that change mode or edges -/

/-- C6: each of `SetupDemod`, `OnNewLowCutFreq` and `OnNewHighCutFreq` makes exactly one
`SetDemod` call, and its arguments are the mode `m_DemodMode` and the whole entry
`m_DemodSettings[m_DemodMode]` (hence its `LowCut` and `HiCut`) that the window holds when
the handler returns; on return `m_DemodMode` is the requested index, resp. the active
entry holds the requested edge. -/
theorem handlers_call_SetDemod_with_final_state (w : MainWindow) (index freq : Int) :
    (setDemodCalls (SetupDemod w index).calls
        = setDemodCalls w.calls ++ [((SetupDemod w index).m_DemodMode,
            (SetupDemod w index).m_DemodSettings (SetupDemod w index).m_DemodMode)] ∧
      (SetupDemod w index).m_DemodMode = index) ∧
    (setDemodCalls (OnNewLowCutFreq w freq).calls
        = setDemodCalls w.calls ++ [((OnNewLowCutFreq w freq).m_DemodMode,
            (OnNewLowCutFreq w freq).m_DemodSettings (OnNewLowCutFreq w freq).m_DemodMode)] ∧
      ((OnNewLowCutFreq w freq).m_DemodSettings (OnNewLowCutFreq w freq).m_DemodMode).LowCut
        = freq) ∧
    (setDemodCalls (OnNewHighCutFreq w freq).calls
        = setDemodCalls w.calls ++ [((OnNewHighCutFreq w freq).m_DemodMode,
            (OnNewHighCutFreq w freq).m_DemodSettings (OnNewHighCutFreq w freq).m_DemodMode)] ∧
      ((OnNewHighCutFreq w freq).m_DemodSettings (OnNewHighCutFreq w freq).m_DemodMode).HiCut
        = freq) := by
  refine ⟨⟨?_, SetupDemod_m_DemodMode w index⟩, ⟨?_, ?_⟩, ⟨?_, ?_⟩⟩
  · rw [SetupDemod_setDemodCalls, SetupDemod_m_DemodMode, SetupDemod_m_DemodSettings]
    simp
  · rw [OnNewLowCutFreq_setDemodCalls]
    simp [OnNewLowCutFreq, UpdateInfoBox, MainWindow.call, MainWindow.assign]
  · simp [OnNewLowCutFreq, UpdateInfoBox, MainWindow.call, MainWindow.assign]
  · rw [OnNewHighCutFreq_setDemodCalls]
    simp [OnNewHighCutFreq, UpdateInfoBox, MainWindow.call, MainWindow.assign]
  · simp [OnNewHighCutFreq, UpdateInfoBox, MainWindow.call, MainWindow.assign]

/-! ## C7 : the offset passed to `SetDemodFreq` -/

/-- C7: each of `OnNewDemodFrequency`, `OnNewCenterFrequency`, `SetupDemod` and (when the
status is `CONNECTED`) `OnRun` makes exactly one `SetDemodFreq` call, whose argument is the
`qint64` difference `m_CenterFrequency - m_DemodFrequency` of the values the window holds
at that point (and still holds on return): `OnNewDemodFrequency(f)` passes
`m_CenterFrequency - f`, `OnNewCenterFrequency` passes `0` after setting both frequencies
to the value `SetRxFreq` returned, `OnRun` uses the center frequency `SetRxFreq` returned.
The `qint64` difference is the exact difference whenever that fits 64 bits. -/
theorem SetDemodFreq_offset (rxFreq : Int → Int) (w : MainWindow) (f index : Int) :
    (demodFreqCalls (OnNewDemodFrequency w f).calls
        = demodFreqCalls w.calls ++ [qint64_sub w.m_CenterFrequency f] ∧
      (OnNewDemodFrequency w f).m_CenterFrequency = w.m_CenterFrequency ∧
      (OnNewDemodFrequency w f).m_DemodFrequency = f) ∧
    (demodFreqCalls (OnNewCenterFrequency rxFreq w f).calls = demodFreqCalls w.calls ++ [0] ∧
      (OnNewCenterFrequency rxFreq w f).m_CenterFrequency = rxFreq f ∧
      (OnNewCenterFrequency rxFreq w f).m_DemodFrequency = rxFreq f ∧
      qint64_sub (rxFreq f) (rxFreq f) = 0) ∧
    (demodFreqCalls (SetupDemod w index).calls
        = demodFreqCalls w.calls ++ [qint64_sub w.m_CenterFrequency w.m_DemodFrequency] ∧
      (SetupDemod w index).m_CenterFrequency = w.m_CenterFrequency ∧
      (SetupDemod w index).m_DemodFrequency = w.m_DemodFrequency) ∧
    (w.m_Status = eStatus.CONNECTED →
      demodFreqCalls (OnRun rxFreq w).calls = demodFreqCalls w.calls ++
          [qint64_sub (rxFreq w.m_CenterFrequency) w.m_DemodFrequency] ∧
      (OnRun rxFreq w).m_CenterFrequency = rxFreq w.m_CenterFrequency ∧
      (OnRun rxFreq w).m_DemodFrequency = w.m_DemodFrequency) ∧
    (w.m_Status ≠ eStatus.CONNECTED →
      demodFreqCalls (OnRun rxFreq w).calls = demodFreqCalls w.calls) ∧
    (∀ a b : Int, -2 ^ 63 ≤ a - b → a - b < 2 ^ 63 → qint64_sub a b = a - b) := by
  have hzero : ∀ x : Int, qint64_sub x x = 0 := by
    intro x
    simp only [qint64_sub, sub_self]
    exact wrap64_of_range 0 (by norm_num) (by norm_num)
  refine ⟨⟨?_, rfl, rfl⟩, ⟨?_, ?_, ?_, hzero _⟩,
    ⟨SetupDemod_demodFreqCalls w index, SetupDemod_frequencies w index⟩, ?_, ?_, ?_⟩
  · simp [OnNewDemodFrequency, MainWindow.call, demodFreqCalls, List.filterMap_append]
  · simp only [OnNewCenterFrequency, MainWindow.call, demodFreqCalls]
    split_ifs <;> simp [List.filterMap_append, hzero]
  · simp only [OnNewCenterFrequency, MainWindow.call]
    split_ifs <;> rfl
  · simp only [OnNewCenterFrequency, MainWindow.call]
    split_ifs <;> rfl
  · intro h
    simp [OnRun, h, MainWindow.call, demodFreqCalls, List.filterMap_append]
  · intro h
    have h' : ¬ (eStatus.CONNECTED = w.m_Status) := fun e => h e.symm
    simp only [OnRun, MainWindow.call, demodFreqCalls, if_neg h']
    split_ifs <;> simp [List.filterMap_append]
  · intro a b h0 h1
    exact wrap64_of_range _ h0 h1

/-- Witness of C7: connected, center frequency 15 000 000 Hz, demodulator frequency
14 990 000 Hz, an interface that tunes exactly: `OnRun` passes the offset 10 000; a window
that is not connected makes no `SetDemodFreq` call in `OnRun`. -/
theorem SetDemodFreq_offset_witness :
    demodFreqCalls (OnRun (fun freq => freq) { zeroWindow with
        m_Status := .CONNECTED, m_CenterFrequency := 15000000,
        m_DemodFrequency := 14990000 }).calls = [10000] ∧
    qint64_sub 15000000 14990000 = 15000000 - 14990000 ∧
    demodFreqCalls (OnRun (fun freq => freq) zeroWindow).calls = [] := by
  have h := SetDemodFreq_offset (fun freq => freq) { zeroWindow with
    m_Status := .CONNECTED, m_CenterFrequency := 15000000,
    m_DemodFrequency := 14990000 } 0 0
  have h' := SetDemodFreq_offset (fun freq => freq) zeroWindow 0 0
  refine ⟨?_, h.2.2.2.2.2 15000000 14990000 (by norm_num) (by norm_num), ?_⟩
  · rw [(h.2.2.2.1 rfl).1]
    decide
  · rw [h'.2.2.2.2.1 (by decide)]
    rfl

/-! ## C8 : wideband-FM status queries -/

/-- C8: when `m_pWFmDemod` is null, `GetStereoLock` and `GetNextRdsGroupData` return `0`
and leave the memory behind the caller's pointer (and the demodulator) as it was; when a
WFM demodulator is active each returns the value, and leaves the memory in the state,
produced by the WFM demodulator's query of the same name. -/
theorem wfm_queries_forwarded {WFm P G : Type}
    (wfmGetStereoLock : WFm → P → Int × P × WFm)
    (wfmGetNextRdsGroupData : WFm → G → Int × G × WFm)
    (d : CDemodulator WFm) (pPilotLock : P) (pGroupData : G) :
    (d.m_pWFmDemod = none →
      d.GetStereoLock wfmGetStereoLock pPilotLock = (0, pPilotLock, d) ∧
      d.GetNextRdsGroupData wfmGetNextRdsGroupData pGroupData = (0, pGroupData, d)) ∧
    (∀ wfm : WFm, d.m_pWFmDemod = some wfm →
      (d.GetStereoLock wfmGetStereoLock pPilotLock).1 = (wfmGetStereoLock wfm pPilotLock).1 ∧
      (d.GetStereoLock wfmGetStereoLock pPilotLock).2.1
        = (wfmGetStereoLock wfm pPilotLock).2.1 ∧
      (d.GetNextRdsGroupData wfmGetNextRdsGroupData pGroupData).1
        = (wfmGetNextRdsGroupData wfm pGroupData).1 ∧
      (d.GetNextRdsGroupData wfmGetNextRdsGroupData pGroupData).2.1
        = (wfmGetNextRdsGroupData wfm pGroupData).2.1) := by
  constructor
  · intro h
    simp [CDemodulator.GetStereoLock, CDemodulator.GetNextRdsGroupData, h]
  · intro wfm h
    simp [CDemodulator.GetStereoLock, CDemodulator.GetNextRdsGroupData, h]

/-- Witness of C8: a demodulator without WFM instance answers `0` and leaves the cells
`5` and `6` alone; one whose WFM instance reports lock value `1` into the pilot cell and
RDS data `7` answers what that instance answers. -/
theorem wfm_queries_forwarded_witness :
    ((({ m_DemodInfo := zeroDemodInfo, m_DemodMode := DEMOD_AM, m_pWFmDemod := none } :
        CDemodulator Nat).GetStereoLock (fun wfm _ => (1, 1, wfm)) (5 : Int)).1 = 0 ∧
      (({ m_DemodInfo := zeroDemodInfo, m_DemodMode := DEMOD_AM, m_pWFmDemod := none } :
        CDemodulator Nat).GetStereoLock (fun wfm _ => (1, 1, wfm)) (5 : Int)).2.1 = 5) ∧
    ((({ m_DemodInfo := zeroDemodInfo, m_DemodMode := DEMOD_WFM, m_pWFmDemod := some 3 } :
        CDemodulator Nat).GetStereoLock (fun wfm _ => (1, 1, wfm)) (5 : Int)).1 = 1 ∧
      (({ m_DemodInfo := zeroDemodInfo, m_DemodMode := DEMOD_WFM, m_pWFmDemod := some 3 } :
        CDemodulator Nat).GetNextRdsGroupData (fun wfm _ => (1, 7, wfm + 1)) (6 : Int)).2.1
        = 7) := by
  have h0 := (wfm_queries_forwarded (fun (wfm : Nat) (_ : Int) => ((1 : Int), (1 : Int), wfm))
    (fun (wfm : Nat) (_ : Int) => ((1 : Int), (7 : Int), wfm + 1))
    { m_DemodInfo := zeroDemodInfo, m_DemodMode := DEMOD_AM, m_pWFmDemod := none } 5 6).1 rfl
  have h1 := (wfm_queries_forwarded (fun (wfm : Nat) (_ : Int) => ((1 : Int), (1 : Int), wfm))
    (fun (wfm : Nat) (_ : Int) => ((1 : Int), (7 : Int), wfm + 1))
    { m_DemodInfo := zeroDemodInfo, m_DemodMode := DEMOD_WFM, m_pWFmDemod := some 3 } 5 6).2
    3 rfl
  refine ⟨⟨?_, ?_⟩, h1.1, h1.2.2.2⟩
  · rw [h0.1]
  · rw [h0.1]

/-! ## C9 : `SetDemod` takes the configuration by value -/

/-- C9: the call `SetDemod(Mode, m_DemodSettings[Mode])` hands the demodulator a copy of
the entry (kept as its `m_DemodInfo`) and leaves every entry of the caller's
`m_DemodSettings` array unchanged. -/
theorem SetDemod_leaves_caller_settings {WFm : Type} (newWFm : TYPEREAL → WFm)
    (s : MainWindow × CDemodulator WFm) (Mode : Int) :
    (∀ i : Int, (callSetDemod newWFm s Mode).1.m_DemodSettings i = s.1.m_DemodSettings i) ∧
    (callSetDemod newWFm s Mode).2.m_DemodInfo = s.1.m_DemodSettings Mode ∧
    (callSetDemod newWFm s Mode).2.m_DemodMode = Mode ∧
    setDemodCalls (callSetDemod newWFm s Mode).1.calls
      = setDemodCalls s.1.calls ++ [(Mode, s.1.m_DemodSettings Mode)] := by
  refine ⟨fun i => rfl, rfl, rfl, ?_⟩
  simp [callSetDemod, MainWindow.call, setDemodCalls, List.filterMap_append]

/-! ## C10 : the mode constants of demodulator.h -/

/-- C10: `NUM_DEMODS` is 10, but `demodulator.h` defines a mode constant for nine of the
ten modes of the specification only: the constants `0 .. 7` and `9`, and none for the
digital-frequency mode, which `mainwindow.cpp` nevertheless uses as `DEMOD_FSK`. -/
theorem header_lacks_digitalFrequency_constant :
    NUM_DEMODS = 10 ∧
    headerConstant .digitalFrequency = none ∧
    [SpecMode.envelopeAM, .synchronousAM, .narrowbandFM, .upperSideband, .lowerSideband,
        .cwUpper, .cwLower, .widebandFM, .digitalPhase].map headerConstant
      = [some 0, some 1, some 2, some 3, some 4, some 5, some 6, some 7, some 9] := by
  decide

/-! ## C17 : modes whose limits leave no room -/

/-- C17: with the limits of `InitDemodSettings`, whatever edges `L`, `H` are stored,
`SetupDemod(DEMOD_WFM)` passes `LowCut = -100000`, `HiCut = 100000` to `SetDemod` and
`SetupDemod(DEMOD_PSK)` passes `LowCut = -50`, `HiCut = 50`; the same values are left in
the stored entry. -/
theorem SetupDemod_fixed_edges_WFM_PSK (w : MainWindow) (L H : Int) :
    (∃ info : tDemodInfo,
      setDemodCalls (SetupDemod ((InitDemodSettings w).assign DEMOD_WFM
          (fun d => { d with LowCut := L, HiCut := H })) DEMOD_WFM).calls
        = setDemodCalls w.calls ++ [(DEMOD_WFM, info)] ∧
      (SetupDemod ((InitDemodSettings w).assign DEMOD_WFM
          (fun d => { d with LowCut := L, HiCut := H })) DEMOD_WFM).m_DemodSettings DEMOD_WFM
        = info ∧
      info.LowCut = -100000 ∧ info.HiCut = 100000) ∧
    (∃ info : tDemodInfo,
      setDemodCalls (SetupDemod ((InitDemodSettings w).assign DEMOD_PSK
          (fun d => { d with LowCut := L, HiCut := H })) DEMOD_PSK).calls
        = setDemodCalls w.calls ++ [(DEMOD_PSK, info)] ∧
      (SetupDemod ((InitDemodSettings w).assign DEMOD_PSK
          (fun d => { d with LowCut := L, HiCut := H })) DEMOD_PSK).m_DemodSettings DEMOD_PSK
        = info ∧
      info.LowCut = -50 ∧ info.HiCut = 50) := by
  constructor
  · refine ⟨clampCutoffs (((InitDemodSettings w).assign DEMOD_WFM
      (fun d => { d with LowCut := L, HiCut := H })).m_DemodSettings DEMOD_WFM), ?_, ?_, ?_, ?_⟩
    · rw [SetupDemod_setDemodCalls]
      simp only [MainWindow.assign, InitDemodSettings_calls]
    · rw [SetupDemod_m_DemodSettings]; simp
    · have e1 : ((InitDemodSettings w).m_DemodSettings DEMOD_WFM).LowCutmin = -100000 := rfl
      have e2 : ((InitDemodSettings w).m_DemodSettings DEMOD_WFM).LowCutmax = -100000 := rfl
      rw [clampCutoffs_eq]
      simp only [MainWindow.assign, if_true]
      omega
    · have e1 : ((InitDemodSettings w).m_DemodSettings DEMOD_WFM).HiCutmin = 100000 := rfl
      have e2 : ((InitDemodSettings w).m_DemodSettings DEMOD_WFM).HiCutmax = 100000 := rfl
      rw [clampCutoffs_eq]
      simp only [MainWindow.assign, if_true]
      omega
  · refine ⟨clampCutoffs (((InitDemodSettings w).assign DEMOD_PSK
      (fun d => { d with LowCut := L, HiCut := H })).m_DemodSettings DEMOD_PSK), ?_, ?_, ?_, ?_⟩
    · rw [SetupDemod_setDemodCalls]
      simp only [MainWindow.assign, InitDemodSettings_calls]
    · rw [SetupDemod_m_DemodSettings]; simp
    · have e1 : ((InitDemodSettings w).m_DemodSettings DEMOD_PSK).LowCutmin = -50 := rfl
      have e2 : ((InitDemodSettings w).m_DemodSettings DEMOD_PSK).LowCutmax = -50 := rfl
      rw [clampCutoffs_eq]
      simp only [MainWindow.assign, if_true]
      omega
    · have e1 : ((InitDemodSettings w).m_DemodSettings DEMOD_PSK).HiCutmin = 50 := rfl
      have e2 : ((InitDemodSettings w).m_DemodSettings DEMOD_PSK).HiCutmax = 50 := rfl
      rw [clampCutoffs_eq]
      simp only [MainWindow.assign, if_true]
      omega

/-! ## C18 : RDS handling in `OnTimer` -/

theorem rdsCalls_append (l l' : List Call) : rdsCalls (l ++ l') = rdsCalls l ++ rdsCalls l' := by
  simp [rdsCalls]

theorem decodedGroups_append (l l' : List Call) :
    decodedGroups (l ++ l') = decodedGroups l ++ decodedGroups l' := by
  simp [decodedGroups, List.filterMap_append]

theorem OnStatus_rds (w : MainWindow) (status : eStatus) :
    rdsCalls (OnStatus w status).calls = rdsCalls w.calls ∧
    decodedGroups (OnStatus w status).calls = decodedGroups w.calls ∧
    (OnStatus w status).m_DemodMode = w.m_DemodMode ∧
    (OnStatus w status).m_FreqChanged = w.m_FreqChanged := by
  cases status <;>
    simp only [OnStatus, MainWindow.call] <;>
    (try split_ifs) <;>
    refine ⟨?_, ?_, ?_, ?_⟩ <;>
    (try simp only [rdsCalls_append, decodedGroups_append, List.append_assoc]) <;>
    first | rfl | exact List.append_nil _

theorem OnTimer_keepAlive_rds (w : MainWindow) :
    rdsCalls (OnTimer_keepAlive w).calls = rdsCalls w.calls ∧
    decodedGroups (OnTimer_keepAlive w).calls = decodedGroups w.calls ∧
    (OnTimer_keepAlive w).m_DemodMode = w.m_DemodMode ∧
    (OnTimer_keepAlive w).m_FreqChanged = w.m_FreqChanged := by
  simp only [OnTimer_keepAlive, MainWindow.call]
  split_ifs <;>
    refine ⟨?_, ?_, ?_, ?_⟩ <;>
    (try simp only [rdsCalls_append, decodedGroups_append, List.append_assoc]) <;>
    first | rfl | exact List.append_nil _

set_option maxHeartbeats 1600000 in
theorem OnTimer_wfm_rds (stereoLock rdsRet : Int) (RdsGroups : tRDS_GROUPS)
    (rdsString rdsCallString : Bool) (w : MainWindow) :
    rdsCalls (OnTimer_wfm stereoLock rdsRet RdsGroups rdsString rdsCallString w).calls
      = rdsCalls w.calls ++
        (if w.m_DemodMode = DEMOD_WFM then
          (if w.m_FreqChanged = true then [.DecodeReset, .ClearRdsCall, .ClearRdsText]
           else [.GetStereoLock, .GetNextRdsGroupData] ++
             (if rdsRet ≠ 0 then
               (if RdsGroups.BlockA ≠ 0 then
                  [.DecodeRdsGroup RdsGroups, .GetRdsString, .GetRdsCallString]
                else [.DecodeReset, .ClearRdsCall, .ClearRdsText])
              else []))
         else []) ∧
    decodedGroups (OnTimer_wfm stereoLock rdsRet RdsGroups rdsString rdsCallString w).calls
      = decodedGroups w.calls ++
        (if w.m_DemodMode = DEMOD_WFM ∧ w.m_FreqChanged = false ∧ rdsRet ≠ 0 ∧
            RdsGroups.BlockA ≠ 0 then [RdsGroups] else []) := by
  by_cases hm : w.m_DemodMode = DEMOD_WFM
  · have hm' : DEMOD_WFM = w.m_DemodMode := hm.symm
    rw [if_pos hm]
    by_cases hf : w.m_FreqChanged = true
    · have hc : ¬ (w.m_DemodMode = DEMOD_WFM ∧ w.m_FreqChanged = false ∧ rdsRet ≠ 0 ∧
          RdsGroups.BlockA ≠ 0) := by simp [hf]
      rw [if_pos hf, if_neg hc]
      simp only [OnTimer_wfm, if_pos hm', if_pos hf, MainWindow.call, if_true]
      refine ⟨?_, ?_⟩ <;>
        (try simp only [rdsCalls_append, decodedGroups_append, List.append_assoc]) <;>
        rfl
    · have hf' : w.m_FreqChanged = false := by simpa using hf
      rw [if_neg hf]
      by_cases hr : rdsRet ≠ 0
      · rw [if_pos hr]
        by_cases hb : RdsGroups.BlockA ≠ 0
        · have hb' : (0 : Int) ≠ RdsGroups.BlockA := fun e => hb e.symm
          rw [if_pos hb, if_pos ⟨hm, hf', hr, hb⟩]
          simp only [OnTimer_wfm, if_pos hm', if_neg hf, if_pos hr, if_pos hb', MainWindow.call]
          split_ifs <;>
            refine ⟨?_, ?_⟩ <;>
            (try simp only [rdsCalls_append, decodedGroups_append, List.append_assoc]) <;>
            rfl
        · have hb' : ¬ ((0 : Int) ≠ RdsGroups.BlockA) := fun e => hb (fun e' => e e'.symm)
          have hc : ¬ (w.m_DemodMode = DEMOD_WFM ∧ w.m_FreqChanged = false ∧ rdsRet ≠ 0 ∧
              RdsGroups.BlockA ≠ 0) := fun h => hb h.2.2.2
          rw [if_neg hb, if_neg hc]
          simp only [OnTimer_wfm, if_pos hm', if_neg hf, if_pos hr, if_neg hb', MainWindow.call,
            if_true]
          refine ⟨?_, ?_⟩ <;>
            (try simp only [rdsCalls_append, decodedGroups_append, List.append_assoc]) <;>
            rfl
      · have hc : ¬ (w.m_DemodMode = DEMOD_WFM ∧ w.m_FreqChanged = false ∧ rdsRet ≠ 0 ∧
            RdsGroups.BlockA ≠ 0) := fun h => hr h.2.2.1
        rw [if_neg hr, if_neg hc]
        simp only [OnTimer_wfm, if_pos hm', if_neg hf, if_neg hr, MainWindow.call]
        split_ifs <;>
          refine ⟨?_, ?_⟩ <;>
          (try simp only [rdsCalls_append, decodedGroups_append, List.append_assoc]) <;>
          rfl
  · have hm' : ¬ (DEMOD_WFM = w.m_DemodMode) := fun e => hm e.symm
    have hc : ¬ (w.m_DemodMode = DEMOD_WFM ∧ w.m_FreqChanged = false ∧ rdsRet ≠ 0 ∧
        RdsGroups.BlockA ≠ 0) := fun h => hm h.1
    rw [if_neg hm, if_neg hc]
    simp only [OnTimer_wfm, if_neg hm']
    exact ⟨(List.append_nil _).symm, (List.append_nil _).symm⟩

/-- C18: the RDS-related calls `OnTimer` makes.  In a mode other than WFM: none.  In WFM
mode with a frequency change pending: the decoder reset and the clearing of both RDS
strings, no query.  In WFM mode otherwise: one `GetStereoLock` and one
`GetNextRdsGroupData`; if the latter returned non-zero and `BlockA` is non-zero the group
is passed to `DecodeRdsGroup` (followed by the two string reads), if it returned non-zero
and `BlockA` is zero the decoder is reset and both RDS strings are cleared, without
decoding.  So a group is decoded exactly when the mode is WFM, no frequency change is
pending, the query returned non-zero and `BlockA ≠ 0`. -/
theorem OnTimer_rds_calls (stereoLock rdsRet : Int) (RdsGroups : tRDS_GROUPS)
    (rdsString rdsCallString : Bool) (w : MainWindow) :
    rdsCalls (OnTimer stereoLock rdsRet RdsGroups rdsString rdsCallString w).calls
      = rdsCalls w.calls ++
        (if w.m_DemodMode = DEMOD_WFM then
          (if w.m_FreqChanged = true then [.DecodeReset, .ClearRdsCall, .ClearRdsText]
           else [.GetStereoLock, .GetNextRdsGroupData] ++
             (if rdsRet ≠ 0 then
               (if RdsGroups.BlockA ≠ 0 then
                  [.DecodeRdsGroup RdsGroups, .GetRdsString, .GetRdsCallString]
                else [.DecodeReset, .ClearRdsCall, .ClearRdsText])
              else []))
         else []) ∧
    decodedGroups (OnTimer stereoLock rdsRet RdsGroups rdsString rdsCallString w).calls
      = decodedGroups w.calls ++
        (if w.m_DemodMode = DEMOD_WFM ∧ w.m_FreqChanged = false ∧ rdsRet ≠ 0 ∧
            RdsGroups.BlockA ≠ 0 then [RdsGroups] else []) := by
  obtain ⟨s1, s2, s3, s4⟩ := OnStatus_rds w w.m_Status
  obtain ⟨k1, k2, k3, k4⟩ := OnTimer_keepAlive_rds (OnStatus w w.m_Status)
  have hw := OnTimer_wfm_rds stereoLock rdsRet RdsGroups rdsString rdsCallString
    (((OnTimer_keepAlive (OnStatus w w.m_Status)).call .GetSMeterAve).call .SetdBmLevel)
  have c1 : rdsCalls (((OnTimer_keepAlive (OnStatus w w.m_Status)).call
      .GetSMeterAve).call .SetdBmLevel).calls = rdsCalls w.calls := by
    rw [← s1, ← k1]
    simp only [MainWindow.call, rdsCalls_append, List.append_assoc]
    exact List.append_nil _
  have c2 : decodedGroups (((OnTimer_keepAlive (OnStatus w w.m_Status)).call
      .GetSMeterAve).call .SetdBmLevel).calls = decodedGroups w.calls := by
    rw [← s2, ← k2]
    simp only [MainWindow.call, decodedGroups_append, List.append_assoc]
    exact List.append_nil _
  have c3 : (((OnTimer_keepAlive (OnStatus w w.m_Status)).call
      .GetSMeterAve).call .SetdBmLevel).m_DemodMode = w.m_DemodMode := by
    rw [← s3, ← k3]; rfl
  have c4 : (((OnTimer_keepAlive (OnStatus w w.m_Status)).call
      .GetSMeterAve).call .SetdBmLevel).m_FreqChanged = w.m_FreqChanged := by
    rw [← s4, ← k4]; rfl
  rw [c1, c2, c3, c4] at hw
  exact hw

/-! ## C19, C20 : the persisted demodulator settings -/

theorem readSettings_Demod_entry_same (s : QSettings) (i : Int) (w : MainWindow) :
    (readSettings_Demod_entry s i w).m_DemodSettings i
      = { w.m_DemodSettings i with
        HiCut := (s.value ⟨some i, "Demod", "HiCut"⟩ (.int 5000)).toInt,
        LowCut := (s.value ⟨some i, "Demod", "LowCut"⟩ (.int (-5000))).toInt,
        FreqClickResolution := (s.value ⟨some i, "Demod", "FreqClickResolution"⟩ (.int (w.m_DemodSettings i).DefFreqClickResolution)).toInt,
        Offset := (s.value ⟨some i, "Demod", "Offset"⟩ (.int 0)).toInt,
        SquelchValue := (s.value ⟨some i, "Demod", "SquelchValue"⟩ (.int (-160))).toInt,
        AgcSlope := (s.value ⟨some i, "Demod", "AgcSlope"⟩ (.int 0)).toInt,
        AgcThresh := (s.value ⟨some i, "Demod", "AgcThresh"⟩ (.int (-100))).toInt,
        AgcManualGain := (s.value ⟨some i, "Demod", "AgcManualGain"⟩ (.int 30)).toInt,
        AgcDecay := (s.value ⟨some i, "Demod", "AgcDecay"⟩ (.int 200)).toInt,
        AgcOn := (s.value ⟨some i, "Demod", "AgcOn"⟩ (.bool true)).toBool,
        AgcHangOn := (s.value ⟨some i, "Demod", "AgcHangOn"⟩ (.bool false)).toBool } := by
  simp [readSettings_Demod_entry, MainWindow.assign]

theorem readSettings_Demod_entry_other (s : QSettings) (i j : Int) (w : MainWindow)
    (h : j ≠ i) :
    (readSettings_Demod_entry s i w).m_DemodSettings j = w.m_DemodSettings j := by
  simp [readSettings_Demod_entry, MainWindow.assign, h]

theorem readSettings_loop_other (s : QSettings) (i : Int) (l : List Int) :
    ∀ w : MainWindow, i ∉ l →
      (l.foldl (fun w j => readSettings_Demod_entry s j w) w).m_DemodSettings i
        = w.m_DemodSettings i := by
  induction l with
  | nil => intro w _; rfl
  | cons j t ih =>
    intro w h
    rw [List.foldl_cons, ih _ (fun h' => h (List.mem_cons_of_mem _ h'))]
    exact readSettings_Demod_entry_other s j i w (fun e => h (e ▸ List.mem_cons_self _ _))

theorem readSettings_loop_same (s : QSettings) (i : Int) (l : List Int) :
    ∀ w : MainWindow, l.Nodup → i ∈ l →
      (l.foldl (fun w j => readSettings_Demod_entry s j w) w).m_DemodSettings i
        = (readSettings_Demod_entry s i w).m_DemodSettings i := by
  induction l with
  | nil => intro w _ h; exact absurd h (List.not_mem_nil _)
  | cons j t ih =>
    intro w hnd hi
    rw [List.foldl_cons]
    have hjt : j ∉ t := (List.nodup_cons.mp hnd).1
    by_cases e : i = j
    · subst e
      exact readSettings_loop_other s i t _ hjt
    · have hit : i ∈ t := (List.mem_cons.mp hi).resolve_left e
      rw [ih _ (List.nodup_cons.mp hnd).2 hit, readSettings_Demod_entry_same,
        readSettings_Demod_entry_same, readSettings_Demod_entry_other s j i w e]

theorem writeSettings_Demod_entry_other (w : MainWindow) (j : Int) (s : QSettings)
    (key : SettingsKey) (h : key.index ≠ some j) :
    (writeSettings_Demod_entry w j s).entries key = s.entries key := by
  have hk : ∀ (g n : String), key ≠ ⟨some j, g, n⟩ := fun g n e => h (by rw [e])
  simp [writeSettings_Demod_entry, QSettings.setValue, hk]

theorem writeSettings_Demod_entry_congr (w : MainWindow) (i : Int) (s s' : QSettings)
    (key : SettingsKey) (h : s'.entries key = s.entries key) :
    (writeSettings_Demod_entry w i s').entries key
      = (writeSettings_Demod_entry w i s).entries key := by
  simp only [writeSettings_Demod_entry, QSettings.setValue, h]

theorem writeSettings_loop_other (w : MainWindow) (key : SettingsKey) (l : List Int) :
    ∀ s : QSettings, (∀ j ∈ l, key.index ≠ some j) →
      (l.foldl (fun s j => writeSettings_Demod_entry w j s) s).entries key = s.entries key := by
  induction l with
  | nil => intro s _; rfl
  | cons j t ih =>
    intro s h
    rw [List.foldl_cons, ih _ (fun k hk => h k (List.mem_cons_of_mem _ hk))]
    exact writeSettings_Demod_entry_other w j s key (h j (List.mem_cons_self _ _))

theorem writeSettings_loop_same (w : MainWindow) (i : Int) (g n : String) (l : List Int) :
    ∀ s : QSettings, l.Nodup → i ∈ l →
      (l.foldl (fun s j => writeSettings_Demod_entry w j s) s).entries ⟨some i, g, n⟩
        = (writeSettings_Demod_entry w i s).entries ⟨some i, g, n⟩ := by
  induction l with
  | nil => intro s _ h; exact absurd h (List.not_mem_nil _)
  | cons j t ih =>
    intro s hnd hi
    rw [List.foldl_cons]
    have hjt : j ∉ t := (List.nodup_cons.mp hnd).1
    by_cases e : i = j
    · subst e
      refine writeSettings_loop_other w _ t _ (fun k hk hik => ?_)
      simp only [Option.some.injEq] at hik
      exact hjt (hik ▸ hk)
    · have hit : i ∈ t := (List.mem_cons.mp hi).resolve_left e
      rw [ih _ (List.nodup_cons.mp hnd).2 hit]
      refine writeSettings_Demod_entry_congr w i s _ _ ?_
      refine writeSettings_Demod_entry_other w j s _ ?_
      simpa using e

theorem mem_demodLoop (i : Int) (h0 : 0 ≤ i) (h1 : i < NUM_DEMODS) : i ∈ demodLoop := by
  unfold NUM_DEMODS at h1
  interval_cases i <;> decide

theorem writeSettings_Demod_lookup (w : MainWindow) (s : QSettings) (i : Int)
    (h0 : 0 ≤ i) (h1 : i < NUM_DEMODS) (n : String) :
    (writeSettings_Demod w s).entries ⟨some i, "Demod", n⟩
      = (writeSettings_Demod_entry w i s).entries ⟨some i, "Demod", n⟩ :=
  writeSettings_loop_same w i "Demod" n demodLoop s (by decide) (mem_demodLoop i h0 h1)


/-- C19, evaluated where the claim fails: with the settings of `InitDemodSettings` and an
empty store, `writeSettings` stores `FilterClickResolution` (commented "not saved in
settings" in `demodulator.h`) of entry 0 under the key `Demod/0/FilterClickResolution`,
and `readSettings` does not load it back.  The other fields commented "not saved" get no
key, and the eleven remaining fields each get one. -/
theorem writeSettings_saves_FilterClickResolution :
    (writeSettings_Demod (InitDemodSettings zeroWindow) emptySettings).entries
      ⟨some 0, "Demod", "FilterClickResolution"⟩ = some (.int 100) ∧
    ((readSettings_Demod (writeSettings_Demod (InitDemodSettings zeroWindow) emptySettings)
      zeroWindow).m_DemodSettings 0).FilterClickResolution = 0 ∧
    ["HiCutmin", "HiCutmax", "LowCutmin", "LowCutmax", "DefFreqClickResolution",
        "Symetric", "txt"].map (fun n =>
      (writeSettings_Demod (InitDemodSettings zeroWindow) emptySettings).entries
        ⟨some 0, "Demod", n⟩)
      = [none, none, none, none, none, none, none] ∧
    ["HiCut", "LowCut", "FreqClickResolution", "Offset", "SquelchValue", "AgcSlope",
        "AgcThresh", "AgcManualGain", "AgcDecay", "AgcOn", "AgcHangOn"].map (fun n =>
      (writeSettings_Demod (InitDemodSettings zeroWindow) emptySettings).entries
        ⟨some 0, "Demod", n⟩)
      = [some (.int 0), some (.int 0), some (.int 0), some (.int 0), some (.int 0),
         some (.int 0), some (.int 0), some (.int 0), some (.int 0), some (.bool false),
         some (.bool false)] := by
  refine ⟨by decide, by decide, by decide, by decide⟩

/-- C20: for every array index `i` with `0 ≤ i < NUM_DEMODS`, whatever the store held
before and whatever window `w2` reads it back, `writeSettings` from window `w` followed by
`readSettings` gives entry `i` the values `w` had for `HiCut`, `LowCut`,
`FreqClickResolution`, `Offset`, `SquelchValue`, `AgcSlope`, `AgcThresh`, `AgcManualGain`,
`AgcDecay`, `AgcOn` and `AgcHangOn`, and leaves every other field of the reading window's
entry (the four limits among them) as it was. -/
theorem settings_roundtrip_Demod (w w2 : MainWindow) (s : QSettings) (i : Int)
    (h0 : 0 ≤ i) (h1 : i < NUM_DEMODS) :
    (readSettings_Demod (writeSettings_Demod w s) w2).m_DemodSettings i
      = { w2.m_DemodSettings i with
        HiCut := (w.m_DemodSettings i).HiCut,
        LowCut := (w.m_DemodSettings i).LowCut,
        FreqClickResolution := (w.m_DemodSettings i).FreqClickResolution,
        Offset := (w.m_DemodSettings i).Offset,
        SquelchValue := (w.m_DemodSettings i).SquelchValue,
        AgcSlope := (w.m_DemodSettings i).AgcSlope,
        AgcThresh := (w.m_DemodSettings i).AgcThresh,
        AgcManualGain := (w.m_DemodSettings i).AgcManualGain,
        AgcDecay := (w.m_DemodSettings i).AgcDecay,
        AgcOn := (w.m_DemodSettings i).AgcOn,
        AgcHangOn := (w.m_DemodSettings i).AgcHangOn } := by
  unfold readSettings_Demod
  rw [readSettings_loop_same _ i demodLoop w2 (by decide) (mem_demodLoop i h0 h1),
    readSettings_Demod_entry_same]
  simp [QSettings.value, writeSettings_Demod_lookup w s i h0 h1, writeSettings_Demod_entry,
    QSettings.setValue, QVariant.toInt, QVariant.toBool]

/-- Witness of C20: entry 3 (USB) of a window set up for USB, written to an empty store
and read back by a freshly initialised window. -/
theorem settings_roundtrip_Demod_witness :
    ((readSettings_Demod (writeSettings_Demod
        (SetupDemod (InitDemodSettings zeroWindow) DEMOD_USB) emptySettings)
        (InitDemodSettings zeroWindow)).m_DemodSettings 3).HiCut = 500 ∧
    ((readSettings_Demod (writeSettings_Demod
        (SetupDemod (InitDemodSettings zeroWindow) DEMOD_USB) emptySettings)
        (InitDemodSettings zeroWindow)).m_DemodSettings 3).HiCutmax = 20000 := by
  have h := settings_roundtrip_Demod (SetupDemod (InitDemodSettings zeroWindow) DEMOD_USB)
    (InitDemodSettings zeroWindow) emptySettings 3 (by decide) (by decide)
  rw [h]
  exact ⟨by decide, by decide⟩

/-! ## C11 : one demodulator object at a time -/

theorem implementing_supported (Mode : Int) (h0 : 0 ≤ Mode) (h1 : Mode < NUM_DEMODS) :
    ∃ c : DemodClass, implementing Mode = some c := by
  unfold NUM_DEMODS at h1
  interval_cases Mode <;> exact ⟨_, rfl⟩

theorem liveDemods_construct {WFm : Type} (newWFm : TYPEREAL → WFm) (d : CDemodulator WFm)
    (Mode : Int) (c : DemodClass) (h : implementing Mode = some c) :
    CDemodulator.liveDemods (CDemodulator.construct newWFm d.DeleteAllDemods Mode) = [c] ∧
    (CDemodulator.construct newWFm d.DeleteAllDemods Mode).heap
      = d.heap ++ (CDemodulator.liveDemods d).map HeapEvent.delete ++ [HeapEvent.new c] := by
  cases c <;>
    simp [CDemodulator.construct, h, CDemodulator.DeleteAllDemods, CDemodulator.liveDemods]

/-- C11: after `SetDemod(Mode, info)` with a supported mode (`0 ≤ Mode < NUM_DEMODS`)
exactly one demodulator object exists, of the class implementing `Mode`; during the call
every object that existed before was deleted, and then that one object was constructed. -/
theorem SetDemod_single_instance {WFm : Type} (newWFm : TYPEREAL → WFm)
    (d : CDemodulator WFm) (Mode : Int) (info : tDemodInfo)
    (h0 : 0 ≤ Mode) (h1 : Mode < NUM_DEMODS) :
    ∃ c : DemodClass, implementing Mode = some c ∧
      CDemodulator.liveDemods (d.SetDemod newWFm Mode info) = [c] ∧
      (d.SetDemod newWFm Mode info).heap
        = d.heap ++ (CDemodulator.liveDemods d).map HeapEvent.delete ++ [HeapEvent.new c] := by
  obtain ⟨c, hc⟩ := implementing_supported Mode h0 h1
  obtain ⟨hl, hh⟩ := liveDemods_construct newWFm d Mode c hc
  exact ⟨c, hc, hl, hh⟩

/-- Witness of C11: a demodulator holding an AM and an SSB object is switched to
wideband FM. -/
theorem SetDemod_single_instance_witness :
    ∃ c : DemodClass, implementing DEMOD_WFM = some c ∧
      CDemodulator.liveDemods (({ zeroDemodulator with
          m_pAmDemod := some ⟨48000⟩, m_pSsbDemod := some ⟨48000⟩ } :
          CDemodulator Nat).SetDemod (fun _ => 0) DEMOD_WFM zeroDemodInfo) = [c] ∧
      (({ zeroDemodulator with
          m_pAmDemod := some ⟨48000⟩, m_pSsbDemod := some ⟨48000⟩ } :
          CDemodulator Nat).SetDemod (fun _ => 0) DEMOD_WFM zeroDemodInfo).heap
        = ({ zeroDemodulator with
            m_pAmDemod := some ⟨48000⟩, m_pSsbDemod := some ⟨48000⟩ } :
            CDemodulator Nat).heap
          ++ (CDemodulator.liveDemods ({ zeroDemodulator with
            m_pAmDemod := some ⟨48000⟩, m_pSsbDemod := some ⟨48000⟩ } :
            CDemodulator Nat)).map HeapEvent.delete
          ++ [HeapEvent.new c] :=
  SetDemod_single_instance (fun _ => 0) _ DEMOD_WFM zeroDemodInfo (by decide) (by decide)

/-! ## C12 : the input block bound of `ProcessData` -/

/-- C12: `ProcessData` fails with `CapacityError` for every block length above
`MAX_INBUFSIZE = 250000`; for every length up to the bound it does not, and hands the
numeric stages the first `InLength` samples of the input, which is the whole block when
the input holds `InLength` samples. -/
theorem ProcessData_capacity {WFm Out : Type}
    (pipeline : CDemodulator WFm → List TYPECPX → List Out × CDemodulator WFm)
    (d : CDemodulator WFm) (InLength : Int) (pInData : List TYPECPX) :
    MAX_INBUFSIZE = 250000 ∧
    (MAX_INBUFSIZE < InLength →
      d.ProcessData pipeline InLength pInData = .error .CapacityError) ∧
    (InLength ≤ MAX_INBUFSIZE →
      d.ProcessData pipeline InLength pInData = .ok (pipeline d (pInData.take InLength.toNat)) ∧
      d.ProcessData pipeline InLength pInData ≠ .error .CapacityError) ∧
    (InLength = pInData.length → pInData.take InLength.toNat = pInData) := by
  refine ⟨rfl, ?_, ?_, ?_⟩
  · intro h
    simp [CDemodulator.ProcessData, h]
  · intro h
    have h' : ¬ InLength > MAX_INBUFSIZE := not_lt.mpr h
    simp [CDemodulator.ProcessData, h']
  · intro h
    simp [h]

/-- Witness of C12: a block of 250001 samples is rejected, a block of two samples is
processed whole. -/
theorem ProcessData_capacity_witness :
    (zeroDemodulator.ProcessData (fun d l => (l.map TYPECPX.re, d)) 250001
        (List.replicate 250001 ⟨0, 0⟩) = .error .CapacityError) ∧
    (zeroDemodulator.ProcessData (fun d l => (l.map TYPECPX.re, d)) 2
        [⟨1, 0⟩, ⟨2, 0⟩] ≠ .error .CapacityError) ∧
    ([(⟨1, 0⟩ : TYPECPX), ⟨2, 0⟩].take (2 : Int).toNat = [⟨1, 0⟩, ⟨2, 0⟩]) :=
  ⟨(ProcessData_capacity (fun d l => (l.map TYPECPX.re, d)) zeroDemodulator 250001
      _).2.1 (by decide),
   ((ProcessData_capacity (fun d l => (l.map TYPECPX.re, d)) zeroDemodulator 2
      _).2.2.1 (by decide)).2,
   (ProcessData_capacity (fun d l => (l.map TYPECPX.re, d)) zeroDemodulator 2
      [⟨1, 0⟩, ⟨2, 0⟩]).2.2.2 rfl⟩

/-! ## C13 : the translator output rate -/

theorem div_two_pow_succ (f : ℚ) (m : ℕ) : f / 2 / 2 ^ m = f / 2 ^ (m + 1) := by
  rw [div_div, pow_succ']

theorem div_two_pow_anti (f : ℚ) (hf : 0 ≤ f) {m n : ℕ} (h : m ≤ n) :
    f / 2 ^ n ≤ f / 2 ^ m := by
  apply div_le_div_of_nonneg_left hf (by positivity)
  exact pow_le_pow_right₀ (by norm_num) h

theorem decimate_stages (b : ℚ) : ∀ (n : ℕ) (f : ℚ),
    ∃ k : ℕ, k ≤ n ∧ decimate n f b = f / 2 ^ k ∧
      (∀ j : ℕ, 1 ≤ j → j ≤ k → b ≤ f / 2 ^ j) ∧ (k < n → f / 2 ^ (k + 1) < b) := by
  intro n
  induction n with
  | zero =>
    intro f
    exact ⟨0, le_refl _, by simp [decimate], fun j h1 h2 => by omega, fun h => by omega⟩
  | succ n ih =>
    intro f
    by_cases h : b ≤ f / 2
    · obtain ⟨k, hk, e, hall, hlt⟩ := ih (f / 2)
      refine ⟨k + 1, by omega, ?_, ?_, ?_⟩
      · simp only [decimate, if_pos h, e, div_two_pow_succ]
      · intro j h1 h2
        obtain ⟨m, rfl⟩ : ∃ m, j = m + 1 := ⟨j - 1, by omega⟩
        rw [← div_two_pow_succ]
        by_cases hm : m = 0
        · subst hm; simpa using h
        · exact hall m (by omega) (by omega)
      · intro hk'
        have := hlt (by omega)
        rwa [div_two_pow_succ] at this
    · refine ⟨0, by omega, by simp [decimate, h], fun j h1 h2 => by omega, fun _ => ?_⟩
      simpa using lt_of_not_le h

theorem decimate_fuel (b f : ℚ) (hb : 0 < b) (hf : 0 < f) (n k : ℕ) (hn : f / b ≤ n)
    (hk : k ≤ n) (hall : ∀ j : ℕ, 1 ≤ j → j ≤ k → b ≤ f / 2 ^ j) : k < n := by
  by_contra hc
  have hkn : k = n := by omega
  subst hkn
  by_cases h0 : k = 0
  · subst h0
    have : 0 < f / b := div_pos hf hb
    simp at hn
    linarith
  · have h1 := hall k (by omega) (le_refl _)
    have h2 : (2 : ℚ) ^ k ≤ f / b := by
      rw [le_div_iff₀ hb]
      rw [le_div_iff₀ (by positivity)] at h1
      linarith
    have h3 : (k : ℚ) < 2 ^ k := by exact_mod_cast Nat.lt_two_pow k
    linarith

theorem decimate_stop (n : ℕ) (f b : ℚ) (h : ¬ b ≤ f / 2) : decimate n f b = f := by
  cases n <;> simp [decimate, h]

theorem SetDataRate_spec (InRate MaxBW : ℚ) (hr : 0 < InRate) (hb : 0 < MaxBW) :
    (∃ k : ℕ, SetDataRate InRate MaxBW = InRate / 2 ^ k) ∧
    SetDataRate InRate MaxBW ≤ InRate ∧
    SetDataRate InRate MaxBW / 2 < 2 * MaxBW ∧
    (2 * MaxBW ≤ InRate → 2 * MaxBW ≤ SetDataRate InRate MaxBW ∧
      ∀ j : ℕ, 2 * MaxBW ≤ InRate / 2 ^ j → SetDataRate InRate MaxBW ≤ InRate / 2 ^ j) ∧
    (InRate < 2 * MaxBW → SetDataRate InRate MaxBW = InRate) := by
  have hb2 : (0 : ℚ) < 2 * MaxBW := by linarith
  obtain ⟨k, hk, e, hall, hlt⟩ := decimate_stages (2 * MaxBW) ⌈InRate / (2 * MaxBW)⌉₊ InRate
  have hkn := decimate_fuel (2 * MaxBW) InRate hb2 hr _ k (Nat.le_ceil _) hk hall
  have hstop := hlt hkn
  have e' : SetDataRate InRate MaxBW = InRate / 2 ^ k := e
  rw [e']
  refine ⟨⟨k, rfl⟩, ?_, ?_, ?_, ?_⟩
  · simpa using div_two_pow_anti InRate hr.le (Nat.zero_le k)
  · rw [← div_two_pow_succ] at hstop
    rw [div_right_comm]
    exact hstop
  · intro hle
    constructor
    · by_cases h0 : k = 0
      · subst h0; simpa using hle
      · exact hall k (by omega) (le_refl _)
    · intro j hj
      by_cases hjk : j ≤ k
      · exact div_two_pow_anti InRate hr.le hjk
      · have := div_two_pow_anti InRate hr.le (show k + 1 ≤ j by omega)
        linarith
  · intro hlt'
    by_cases h0 : k = 0
    · subst h0; simp
    · have h1 := hall k (by omega) (le_refl _)
      have h2 := div_two_pow_anti InRate hr.le (Nat.zero_le k)
      simp at h2
      linarith

/-- Counterexample to C13 as stated: for input rate 1 and desired output bandwidth 1 no
translator output rate at all is both at least 2 x the bandwidth and at most the input
rate, whatever the selection does; the selection modelled from the spec keeps the input
rate 1, which is below 2 x the bandwidth. -/
theorem SetInputSampleRate_below_twice_bandwidth :
    (({ zeroDemodulator with m_DesiredMaxOutputBandwidth := 1 } :
        CDemodulator Nat).SetInputSampleRate 1).m_DownConverterOutputRate = 1 ∧
    ¬ (2 * ({ zeroDemodulator with m_DesiredMaxOutputBandwidth := 1 } :
        CDemodulator Nat).m_DesiredMaxOutputBandwidth
      ≤ (({ zeroDemodulator with m_DesiredMaxOutputBandwidth := 1 } :
        CDemodulator Nat).SetInputSampleRate 1).m_DownConverterOutputRate) ∧
    ¬ (∃ d : CDemodulator Nat, d.m_InputRate = 1 ∧ d.m_DesiredMaxOutputBandwidth = 1 ∧
      2 * d.m_DesiredMaxOutputBandwidth ≤ d.m_DownConverterOutputRate ∧
      d.m_DownConverterOutputRate ≤ d.m_InputRate) := by
  have h : SetDataRate 1 1 = 1 := decimate_stop _ _ _ (by norm_num)
  refine ⟨?_, ?_, ?_⟩
  · simp only [CDemodulator.SetInputSampleRate, h]
  · simp only [CDemodulator.SetInputSampleRate, h]
    norm_num
  · rintro ⟨d, h1, h2, h3, h4⟩
    rw [h2] at h3
    rw [h1] at h4
    linarith

/-- C13 (amended): for every positive input rate and positive desired output bandwidth
`BW` with `2 BW` not above the input rate, the translator output rate that
`SetInputSampleRate` selects and stores is the input rate divided by a power of two, is
at least `2 BW`, and is the smallest rate `InputRate / 2^j` with that property: one more
halving falls below `2 BW`.  It never exceeds the input rate. -/
theorem SetInputSampleRate_selects_rate {WFm : Type} (d : CDemodulator WFm)
    (InputRate : TYPEREAL) (hr : 0 < InputRate) (hb : 0 < d.m_DesiredMaxOutputBandwidth)
    (hle : 2 * d.m_DesiredMaxOutputBandwidth ≤ InputRate) :
    (d.SetInputSampleRate InputRate).m_InputRate = InputRate ∧
    (d.SetInputSampleRate InputRate).m_DesiredMaxOutputBandwidth
      = d.m_DesiredMaxOutputBandwidth ∧
    (∃ k : ℕ, (d.SetInputSampleRate InputRate).m_DownConverterOutputRate = InputRate / 2 ^ k) ∧
    2 * d.m_DesiredMaxOutputBandwidth
      ≤ (d.SetInputSampleRate InputRate).m_DownConverterOutputRate ∧
    (d.SetInputSampleRate InputRate).m_DownConverterOutputRate ≤ InputRate ∧
    (d.SetInputSampleRate InputRate).m_DownConverterOutputRate / 2
      < 2 * d.m_DesiredMaxOutputBandwidth ∧
    (∀ j : ℕ, 2 * d.m_DesiredMaxOutputBandwidth ≤ InputRate / 2 ^ j →
      (d.SetInputSampleRate InputRate).m_DownConverterOutputRate ≤ InputRate / 2 ^ j) := by
  obtain ⟨h1, h2, h3, h4, _⟩ := SetDataRate_spec InputRate d.m_DesiredMaxOutputBandwidth hr hb
  exact ⟨rfl, rfl, h1, (h4 hle).1, h2, h3, (h4 hle).2⟩

/-- Witness of C13 (amended): input rate 48000 and desired bandwidth 5000; the selected
rate is at least 10000 and at most 48000, and half of it is below 10000. -/
theorem SetInputSampleRate_selects_rate_witness :
    ((0 : TYPEREAL) < 48000 ∧ (0 : TYPEREAL) < 5000 ∧ (2 * 5000 : TYPEREAL) ≤ 48000) ∧
    2 * 5000 ≤ (({ zeroDemodulator with m_DesiredMaxOutputBandwidth := 5000 } :
        CDemodulator Nat).SetInputSampleRate 48000).m_DownConverterOutputRate ∧
    (({ zeroDemodulator with m_DesiredMaxOutputBandwidth := 5000 } :
        CDemodulator Nat).SetInputSampleRate 48000).m_DownConverterOutputRate ≤ 48000 ∧
    (({ zeroDemodulator with m_DesiredMaxOutputBandwidth := 5000 } :
        CDemodulator Nat).SetInputSampleRate 48000).m_DownConverterOutputRate / 2
      < 2 * 5000 := by
  have h := SetInputSampleRate_selects_rate ({ zeroDemodulator with
    m_DesiredMaxOutputBandwidth := 5000 } : CDemodulator Nat) 48000 (by norm_num)
    (by norm_num) (by norm_num)
  exact ⟨⟨by norm_num, by norm_num, by norm_num⟩, h.2.2.2.1, h.2.2.2.2.1, h.2.2.2.2.2.1⟩

/-! ## C14 : block length of `CSamDemod::ProcessData` -/

theorem sampleLoop_length {CFir Out : Type}
    (pll : CSamDemod CFir → TYPECPX → Out × CSamDemod CFir) :
    ∀ (n i : ℕ) (pInData : ℕ → TYPECPX) (s : CSamDemod CFir),
      (CSamDemod.sampleLoop pll n i pInData s).1.length = n := by
  intro n
  induction n with
  | zero => intro i p s; rfl
  | succ n ih =>
    intro i p s
    simp [CSamDemod.sampleLoop, ih]

/-- C14: for every block length `InLength ≥ 0`, the mono overload (`TYPEREAL` output) and
the stereo overload (`TYPECPX` output) of `CSamDemod::ProcessData` return `InLength` and
produce exactly `InLength` output samples. -/
theorem CSamDemod_ProcessData_length {CFir : Type}
    (pllMono : CSamDemod CFir → TYPECPX → TYPEREAL × CSamDemod CFir)
    (pllStereo : CSamDemod CFir → TYPECPX → TYPECPX × CSamDemod CFir)
    (s : CSamDemod CFir) (InLength : Int) (pInData : ℕ → TYPECPX) (h : 0 ≤ InLength) :
    ((s.ProcessData pllMono InLength pInData).1 = InLength ∧
      ((s.ProcessData pllMono InLength pInData).2.1.length : Int) = InLength) ∧
    ((s.ProcessData pllStereo InLength pInData).1 = InLength ∧
      ((s.ProcessData pllStereo InLength pInData).2.1.length : Int) = InLength) := by
  refine ⟨⟨rfl, ?_⟩, ⟨rfl, ?_⟩⟩ <;>
    simp only [CSamDemod.ProcessData, sampleLoop_length] <;>
    exact Int.toNat_of_nonneg h

/-- Witness of C14: a block of three samples. -/
theorem CSamDemod_ProcessData_length_witness :
    (((zeroSamDemod.ProcessData (fun s x => (x.re, s)) 3
        (fun i => ⟨i, 0⟩)).2.1.length : Int) = 3) ∧
    (((zeroSamDemod.ProcessData (fun s x => (x, s)) 3
        (fun i => ⟨i, 0⟩)).2.1.length : Int) = 3) :=
  ⟨(CSamDemod_ProcessData_length (fun s x => (x.re, s)) (fun s x => (x, s)) zeroSamDemod 3
    (fun i => ⟨i, 0⟩) (by decide)).1.2,
   (CSamDemod_ProcessData_length (fun s x => (x.re, s)) (fun s x => (x, s)) zeroSamDemod 3
    (fun i => ⟨i, 0⟩) (by decide)).2.2⟩

/-! ## C15 : the meter reads -/

theorem GetSMeter_state {WFm : Type} (d : CDemodulator WFm) :
    d.GetSMeterPeak.2 = d ∧ d.GetSMeterAve.2 = d := by
  cases d
  exact ⟨rfl, rfl⟩

theorem readMeters_eq {WFm : Type} (reads : List Bool) (d : CDemodulator WFm) :
    CDemodulator.readMeters reads d = d := by
  induction reads with
  | nil => rfl
  | cons r t ih =>
    simp only [CDemodulator.readMeters, List.foldl_cons] at ih ⊢
    cases r <;> simp [(GetSMeter_state d).1, (GetSMeter_state d).2, ih]

/-- C15: `GetSMeterPeak` and `GetSMeterAve` leave the demodulator exactly as it was, also
when called any number of times in any order; so a later `ProcessData` call gives the
same result, and a later meter read the same value, as without those reads. -/
theorem meter_reads_change_nothing {WFm Out : Type} (reads : List Bool)
    (d : CDemodulator WFm)
    (pipeline : CDemodulator WFm → List TYPECPX → List Out × CDemodulator WFm)
    (InLength : Int) (pInData : List TYPECPX) :
    d.GetSMeterPeak.2 = d ∧ d.GetSMeterAve.2 = d ∧
    CDemodulator.readMeters reads d = d ∧
    (CDemodulator.readMeters reads d).ProcessData pipeline InLength pInData
      = d.ProcessData pipeline InLength pInData ∧
    (CDemodulator.readMeters reads d).GetSMeterPeak.1 = d.GetSMeterPeak.1 ∧
    (CDemodulator.readMeters reads d).GetSMeterAve.1 = d.GetSMeterAve.1 := by
  rw [readMeters_eq]
  exact ⟨(GetSMeter_state d).1, (GetSMeter_state d).2, rfl, rfl, rfl, rfl⟩

/-! ## C16 : `SetDemodFreq` and the mutex -/

/-- C16: `SetDemodFreq` changes the translator by the two calls `SetCwOffset(m_CW_Offset)`
and `SetFrequency(Freq)` and makes no call on `m_Mutex`: for every demodulator and
frequency its calls are these two, and in a demodulator that made no call before (with
frequency 1000) both translator calls are made while the mutex is not held. -/
theorem SetDemodFreq_without_lock {WFm : Type} (d : CDemodulator WFm) (Freq : TYPEREAL) :
    (d.SetDemodFreq Freq).calls
      = d.calls ++ [DemodCall.SetCwOffset d.m_CW_Offset, DemodCall.SetFrequency Freq] ∧
    unlockedTranslatorCalls false (zeroDemodulator.SetDemodFreq 1000).calls
      = [DemodCall.SetCwOffset 0, DemodCall.SetFrequency 1000] :=
  ⟨rfl, rfl⟩

/-! ## C21 : the frequency round trip through the settings store -/

/-- C21: for a center frequency and a demod frequency between 0 and 2^31 - 1,
`writeSettings` followed by `readSettings` restores both values exactly, whatever the store
and the reading window held before: the `(int)` cast of the write (reduction to the 32-bit
two's-complement range, `wrap32`) leaves such a value unchanged, and `toUInt` of the read
(reduction modulo 2^32) returns a non-negative `int` as the same number. -/
theorem settings_roundtrip_frequencies (w w' : MainWindow) (s : QSettings)
    (hc : 0 ≤ w.m_CenterFrequency ∧ w.m_CenterFrequency ≤ 2 ^ 31 - 1)
    (hd : 0 ≤ w.m_DemodFrequency ∧ w.m_DemodFrequency ≤ 2 ^ 31 - 1) :
    (readSettings_Frequencies (writeSettings_Frequencies w s) w').m_CenterFrequency
      = w.m_CenterFrequency ∧
    (readSettings_Frequencies (writeSettings_Frequencies w s) w').m_DemodFrequency
      = w.m_DemodFrequency := by
  obtain ⟨hc0, hc1⟩ := hc
  obtain ⟨hd0, hd1⟩ := hd
  have key : ∀ f : Int, 0 ≤ f → f ≤ 2 ^ 31 - 1 → wrap32 f % 2 ^ 32 = f := by
    intro f h0 h1
    simp only [wrap32]
    norm_num at h1 ⊢
    omega
  refine ⟨?_, ?_⟩
  · simp [readSettings_Frequencies, writeSettings_Frequencies, QSettings.value,
      QSettings.setValue, QVariant.toUInt]
    exact key _ hc0 hc1
  · simp [readSettings_Frequencies, writeSettings_Frequencies, QSettings.value,
      QSettings.setValue, QVariant.toUInt]
    exact key _ hd0 hd1

/-- Witness of C21: the upper end of the frequency control's range, 1,700,000,000 Hz, as
center frequency and its lower end, 100 Hz, as demod frequency. -/
theorem settings_roundtrip_frequencies_witness :
    (readSettings_Frequencies (writeSettings_Frequencies
        { zeroWindow with m_CenterFrequency := 1700000000, m_DemodFrequency := 100 }
        emptySettings) zeroWindow).m_CenterFrequency = 1700000000 ∧
    (readSettings_Frequencies (writeSettings_Frequencies
        { zeroWindow with m_CenterFrequency := 1700000000, m_DemodFrequency := 100 }
        emptySettings) zeroWindow).m_DemodFrequency = 100 :=
  settings_roundtrip_frequencies
    { zeroWindow with m_CenterFrequency := 1700000000, m_DemodFrequency := 100 }
    zeroWindow emptySettings ⟨by decide, by decide⟩ ⟨by decide, by decide⟩

/-! ## C22 : the payload of `SendIQDataBlk` -/

theorem iqBytes_length (x : tICpx32) : (iqBytes x).length = 6 := rfl

theorem iqBytes_eq_msb3 (x : tICpx32) : iqBytes x = msb3 x.re ++ msb3 x.im := by
  have key : ∀ v : Int, (v / 2 ^ 24) % 256 = (v % 2 ^ 32) / 2 ^ 24 ∧
      (v / 2 ^ 16) % 256 = ((v % 2 ^ 32) / 2 ^ 16) % 256 ∧
      (v / 2 ^ 8) % 256 = ((v % 2 ^ 32) / 2 ^ 8) % 256 := by
    intro v
    norm_num
    omega
  obtain ⟨a1, a2, a3⟩ := key x.re
  obtain ⟨b1, b2, b3⟩ := key x.im
  simp only [iqBytes, msb3, a1, a2, a3, b1, b2, b3, List.cons_append, List.nil_append]

theorem iqLoop_prefix (pData : Nat → tICpx32) (n : Nat) :
    ∀ (j : Nat) (acc : List Int), ∃ rest, iqLoop pData n j acc = acc ++ rest ∧
      rest.length = 6 * n := by
  induction n with
  | zero => intro j acc; exact ⟨[], by simp [iqLoop], rfl⟩
  | succ n ih =>
    intro j acc
    obtain ⟨rest, h1, h2⟩ := ih (j + 1) (acc ++ iqBytes (pData j))
    refine ⟨iqBytes (pData j) ++ rest, ?_, ?_⟩
    · simp only [iqLoop]; rw [h1, List.append_assoc]
    · rw [List.length_append, iqBytes_length, h2]; ring

theorem iqLoop_length (pData : Nat → tICpx32) (n j : Nat) (acc : List Int) :
    (iqLoop pData n j acc).length = acc.length + 6 * n := by
  obtain ⟨rest, h1, h2⟩ := iqLoop_prefix pData n j acc
  rw [h1, List.length_append, h2]

theorem iqLoop_block (pData : Nat → tICpx32) (n : Nat) :
    ∀ (j : Nat) (acc : List Int) (k : Nat), k < n →
      ((iqLoop pData n j acc).drop (acc.length + 6 * k)).take 6 = iqBytes (pData (j + k)) := by
  induction n with
  | zero => intro j acc k hk; omega
  | succ n ih =>
    intro j acc k hk
    cases k with
    | zero =>
      obtain ⟨rest, h1, _⟩ := iqLoop_prefix pData n (j + 1) (acc ++ iqBytes (pData j))
      simp only [iqLoop]
      rw [h1, List.append_assoc, Nat.mul_zero, Nat.add_zero, List.drop_left,
        List.take_append_of_le_length (by rw [iqBytes_length]), Nat.add_zero]
      exact List.take_of_length_le (by rw [iqBytes_length])
    | succ k =>
      have := ih (j + 1) (acc ++ iqBytes (pData j)) k (by omega)
      simp only [iqLoop]
      rw [List.length_append, iqBytes_length] at this
      have e1 : acc.length + 6 * (k + 1) = acc.length + 6 + 6 * k := by ring
      have e2 : j + (k + 1) = j + 1 + k := by ring
      rw [e1, e2]; exact this

/-- C22: for `NumSamples >= 0`, `SendIQDataBlk` returns `6 * NumSamples`; the message it
hands to `SendUdpMsg` (when the interface pointer is non-null) carries the header
`(TYPE_TARG_DATA_ITEM0 << 8) + (6 * NumSamples + 4)`, the sequence number held before the
call and the length `6 * NumSamples + 4`; the payload has `6 * NumSamples` bytes, and for
each `j < NumSamples` its bytes `6j .. 6j+5` are the three most significant bytes of
`pData[j].re` followed by those of `pData[j].im`, most significant first.  `len` counts the
payload bytes exactly: the capacity of `DataBuf` is declared outside the modelled sources
and the count stays inside the range of `int` for every block that fits a message. -/
theorem SendIQDataBlk_payload {Gen : Type} (TYPE_TARG_DATA_ITEM0 : Int) (d : CFileTxDlg Gen)
    (pData : Nat → tICpx32) (NumSamples : Int) (hN : 0 ≤ NumSamples) :
    (d.SendIQDataBlk TYPE_TARG_DATA_ITEM0 pData NumSamples).1 = 6 * NumSamples ∧
    (d.SendIQDataBlk TYPE_TARG_DATA_ITEM0 pData NumSamples).2.sent
      = d.sent ++ (if d.m_pSdrInterface then
          [⟨TYPE_TARG_DATA_ITEM0 * 2 ^ 8 + (6 * NumSamples + 4), d.m_SeqNumber,
            iqLoop pData NumSamples.toNat 0 [], 6 * NumSamples + 4⟩]
        else []) ∧
    ((iqLoop pData NumSamples.toNat 0 []).length : Int) = 6 * NumSamples ∧
    ∀ j : Nat, (j : Int) < NumSamples →
      ((iqLoop pData NumSamples.toNat 0 []).drop (6 * j)).take 6
        = msb3 (pData j).re ++ msb3 (pData j).im := by
  have hlen : ((iqLoop pData NumSamples.toNat 0 []).length : Int) = 6 * NumSamples := by
    rw [iqLoop_length]
    simp only [List.length_nil, Nat.zero_add]
    push_cast
    rw [Int.toNat_of_nonneg hN]
  refine ⟨hlen, ?_, hlen, ?_⟩
  · simp only [CFileTxDlg.SendIQDataBlk, hlen]
    split_ifs <;> simp
  · intro j hj
    have h := iqLoop_block pData NumSamples.toNat 0 [] j (by omega)
    simp only [List.length_nil, Nat.zero_add] at h
    rw [h, iqBytes_eq_msb3]

/-- Witness of C22: two samples with `re = 0x12345678` and `im = -1`: the call returns 12,
and bytes 6..11 of the payload are `12 34 56 FF FF FF`. -/
theorem SendIQDataBlk_payload_witness :
    (0 : Int) ≤ 2 ∧
    (zeroDialog.SendIQDataBlk 0 (fun _ => ⟨305419896, -1⟩) 2).1 = 6 * 2 ∧
    ((iqLoop (fun _ => ⟨305419896, -1⟩) (2 : Int).toNat 0 []).drop (6 * 1)).take 6
      = [18, 52, 86, 255, 255, 255] :=
  ⟨by decide,
    (SendIQDataBlk_payload 0 zeroDialog (fun _ => ⟨305419896, -1⟩) 2 (by decide)).1,
    ((SendIQDataBlk_payload 0 zeroDialog (fun _ => ⟨305419896, -1⟩) 2 (by decide)).2.2.2 1
      (by decide)).trans (by decide)⟩

/-! ## C23 : the refill loop of `NewTxMsgSlot` -/

theorem SendIQDataBlk_240 {Gen : Type} (T : Int) (d : CFileTxDlg Gen)
    (pData : Nat → tICpx32) (hp : d.m_pSdrInterface = true) :
    (d.SendIQDataBlk T pData 240).1 = 1440 ∧
    (d.SendIQDataBlk T pData 240).2 = { d with
      m_SeqNumber := d.m_SeqNumber + 1,
      sent := d.sent ++ [⟨T * 2 ^ 8 + 1444, d.m_SeqNumber, iqLoop pData 240 0 [], 1444⟩] } := by
  have hlen : ((iqLoop pData (240 : Int).toNat 0 []).length : Int) = 1440 := by
    rw [iqLoop_length]; rfl
  constructor
  · exact hlen
  · simp only [CFileTxDlg.SendIQDataBlk, hlen, hp, if_true]
    rfl

theorem refillLoop_spec {Gen : Type} (T : Int) (generate : Gen → Int → (Nat → tICpx32) × Gen) :
    ∀ (fuel : Nat) (B : Int) (d : CFileTxDlg Gen), 0 ≤ B → B / 1440 ≤ fuel →
      d.m_pSdrInterface = true →
      ∃ msgs : List TxDataMsg,
        (CFileTxDlg.refillLoop T generate fuel B d).1 = B % 1440 ∧
        (CFileTxDlg.refillLoop T generate fuel B d).2.sent = d.sent ++ msgs ∧
        msgs.length = (B / 1440).toNat ∧
        msgs.map (fun m => (m.DataBuf.length, m.Length))
          = List.replicate (B / 1440).toNat (1440, 1444) ∧
        (CFileTxDlg.refillLoop T generate fuel B d).2.m_SeqNumber
          = d.m_SeqNumber + B / 1440 := by
  intro fuel
  induction fuel with
  | zero =>
    intro B d h0 hf hp
    have hB : B / 1440 = 0 := by omega
    have hm : B % 1440 = B := by omega
    refine ⟨[], ?_, ?_, ?_, ?_, ?_⟩ <;> simp [CFileTxDlg.refillLoop, hB, hm]
  | succ fuel ih =>
    intro B d h0 hf hp
    by_cases hge : B ≥ 240 * 6
    · obtain ⟨s1, s2⟩ := SendIQDataBlk_240 T (CFileTxDlg.GenerateTestData generate d 240).2
        (CFileTxDlg.GenerateTestData generate d 240).1 hp
      have hq : (B - 1440) / 1440 = B / 1440 - 1 := by omega
      have hm : (B - 1440) % 1440 = B % 1440 := by omega
      have hstep : CFileTxDlg.refillLoop T generate (fuel + 1) B d
          = CFileTxDlg.refillLoop T generate fuel (B - 1440)
              ((CFileTxDlg.GenerateTestData generate d 240).2.SendIQDataBlk T
                (CFileTxDlg.GenerateTestData generate d 240).1 240).2 := by
        rw [CFileTxDlg.refillLoop, if_pos hge]
        simp only [s1]
      obtain ⟨msgs, r1, r2, r3, r4, r5⟩ := ih (B - 1440)
        ((CFileTxDlg.GenerateTestData generate d 240).2.SendIQDataBlk T
                (CFileTxDlg.GenerateTestData generate d 240).1 240).2
        (by omega) (by push_cast at hf; omega) (by rw [s2]; exact hp)
      rw [hstep]
      rw [s2] at r1 r2 r5 ⊢
      have hk : (B / 1440).toNat = ((B - 1440) / 1440).toNat + 1 := by omega
      refine ⟨⟨T * 2 ^ 8 + 1444, d.m_SeqNumber,
        iqLoop (CFileTxDlg.GenerateTestData generate d 240).1 240 0 [], 1444⟩ :: msgs,
        ?_, ?_, ?_, ?_, ?_⟩
      · rw [r1, hm]
      · rw [r2]; simp [CFileTxDlg.GenerateTestData]
      · rw [List.length_cons, r3, hk]
      · rw [List.map_cons, r4, hk, List.replicate_succ]
        simp only [List.cons.injEq, and_true, Prod.mk.injEq]
        rw [iqLoop_length]; rfl
      · rw [r5, hq]; simp [CFileTxDlg.GenerateTestData]
    · have hB : B / 1440 = 0 := by omega
      have hm : B % 1440 = B := by omega
      have hge' : ¬ (1440 ≤ B) := by omega
      have hstep : CFileTxDlg.refillLoop T generate (fuel + 1) B d = (B, d) := by
        rw [CFileTxDlg.refillLoop, if_neg hge]
      rw [hstep]
      refine ⟨[], ?_, ?_, ?_, ?_, ?_⟩ <;> simp [hB, hm]

theorem refillLoop_fuel {Gen : Type} (T : Int) (generate : Gen → Int → (Nat → tICpx32) × Gen) :
    ∀ (fuel fuel' : Nat) (B : Int) (d : CFileTxDlg Gen), 0 ≤ B → B / 1440 ≤ fuel →
      B / 1440 ≤ fuel' →
      CFileTxDlg.refillLoop T generate fuel B d = CFileTxDlg.refillLoop T generate fuel' B d := by
  intro fuel
  induction fuel with
  | zero =>
    intro fuel' B d h0 hf hf'
    have hlt : ¬ (B ≥ 240 * 6) := by omega
    cases fuel' with
    | zero => rfl
    | succ n => rw [CFileTxDlg.refillLoop, CFileTxDlg.refillLoop, if_neg hlt]
  | succ fuel ih =>
    intro fuel' B d h0 hf hf'
    by_cases hge : B ≥ 240 * 6
    · cases fuel' with
      | zero => omega
      | succ n =>
        rw [CFileTxDlg.refillLoop, CFileTxDlg.refillLoop, if_pos hge, if_pos hge]
        have s1 : ∀ (e : CFileTxDlg Gen) (p : Nat → tICpx32),
            (e.SendIQDataBlk T p 240).1 = 1440 := by
          intro e p
          show ((iqLoop p (240 : Int).toNat 0 []).length : Int) = 1440
          rw [iqLoop_length]; rfl
        simp only [s1]
        exact ih n (B - 1440) _ (by omega) (by push_cast at hf; omega)
          (by push_cast at hf'; omega)
    · cases fuel' with
      | zero => rw [CFileTxDlg.refillLoop, CFileTxDlg.refillLoop, if_neg hge]
      | succ n => rw [CFileTxDlg.refillLoop, CFileTxDlg.refillLoop, if_neg hge, if_neg hge]

/-- C23: for a `TYPE_DATA_ITEM_ACK` message reporting `BytesAvail >= 0` bytes of FIFO
space (the interface pointer being non-null), the refill loop ends with the loop condition
false, whatever fuel at least `BytesAvail` it is given.  It sends exactly
`BytesAvail / 1440` messages, each with a payload of `6 * 240` bytes and length
`6 * 240 + 4`; the sequence number advances by the same count and the space left is
`BytesAvail % 1440`.  For `BytesAvail < 1440` nothing is sent and nothing changes. -/
theorem NewTxMsgSlot_refill {Gen : Type} (TYPE_TARG_DATA_ITEM0 : Int)
    (generate : Gen → Int → (Nat → tICpx32) × Gen) (d : CFileTxDlg Gen) (BytesAvail : Int)
    (h0 : 0 ≤ BytesAvail) (hp : d.m_pSdrInterface = true) :
    (∃ msgs : List TxDataMsg,
      (d.NewTxMsgSlot_ack TYPE_TARG_DATA_ITEM0 generate BytesAvail).1 = BytesAvail % 1440 ∧
      (d.NewTxMsgSlot_ack TYPE_TARG_DATA_ITEM0 generate BytesAvail).2.sent = d.sent ++ msgs ∧
      msgs.length = (BytesAvail / 1440).toNat ∧
      msgs.map (fun m => (m.DataBuf.length, m.Length))
        = List.replicate (BytesAvail / 1440).toNat (6 * 240, 6 * 240 + 4) ∧
      (d.NewTxMsgSlot_ack TYPE_TARG_DATA_ITEM0 generate BytesAvail).2.m_SeqNumber
        = d.m_SeqNumber + BytesAvail / 1440) ∧
    (d.NewTxMsgSlot_ack TYPE_TARG_DATA_ITEM0 generate BytesAvail).1 < 240 * 6 ∧
    (∀ fuel : Nat, BytesAvail.toNat ≤ fuel →
      CFileTxDlg.refillLoop TYPE_TARG_DATA_ITEM0 generate fuel BytesAvail d
        = d.NewTxMsgSlot_ack TYPE_TARG_DATA_ITEM0 generate BytesAvail) ∧
    (BytesAvail < 1440 →
      d.NewTxMsgSlot_ack TYPE_TARG_DATA_ITEM0 generate BytesAvail = (BytesAvail, d)) := by
  have hdef : d.NewTxMsgSlot_ack TYPE_TARG_DATA_ITEM0 generate BytesAvail
      = CFileTxDlg.refillLoop TYPE_TARG_DATA_ITEM0 generate BytesAvail.toNat BytesAvail d := by
    simp [CFileTxDlg.NewTxMsgSlot_ack, hp]
  have hmain := refillLoop_spec TYPE_TARG_DATA_ITEM0 generate BytesAvail.toNat BytesAvail d h0
    (by omega) hp
  refine ⟨?_, ?_, ?_, ?_⟩
  · rw [hdef]; exact hmain
  · rw [hdef]
    obtain ⟨_, h1, _⟩ := hmain
    rw [h1]; omega
  · intro fuel hf
    rw [hdef]
    exact refillLoop_fuel TYPE_TARG_DATA_ITEM0 generate fuel BytesAvail.toNat BytesAvail d h0
      (by omega) (by omega)
  · intro hlt
    rw [hdef]
    cases h : BytesAvail.toNat with
    | zero => rfl
    | succ n => rw [CFileTxDlg.refillLoop, if_neg (by omega)]

/-- Witness of C23: 3000 bytes of FIFO space: two blocks are sent and 120 bytes are left. -/
theorem NewTxMsgSlot_refill_witness :
    ((0 : Int) ≤ 3000 ∧ zeroDialog.m_pSdrInterface = true) ∧
    (zeroDialog.NewTxMsgSlot_ack 0 (fun g _ => (fun _ => ⟨0, 0⟩, g)) 3000).1 < 240 * 6 ∧
    ∃ msgs : List TxDataMsg,
      (zeroDialog.NewTxMsgSlot_ack 0 (fun g _ => (fun _ => ⟨0, 0⟩, g)) 3000).1 = 120 ∧
      (zeroDialog.NewTxMsgSlot_ack 0 (fun g _ => (fun _ => ⟨0, 0⟩, g)) 3000).2.sent
        = zeroDialog.sent ++ msgs ∧
      msgs.length = 2 := by
  have h := NewTxMsgSlot_refill 0 (fun g _ => (fun _ => ⟨0, 0⟩, g)) zeroDialog 3000
    (by decide) rfl
  obtain ⟨msgs, h1, h2, h3, _⟩ := h.1
  exact ⟨⟨by decide, rfl⟩, h.2.1, msgs, h1.trans (by decide), h2, h3.trans (by decide)⟩

/-! ## C24 : the copy loop of `on_pushButtonStart_clicked` -/

theorem copyLoop_run (N : Int) (reads : Nat → Int) (writes : Nat → Bool)
    (hr : ∀ k, reads k ≤ 512) (hN : N ≤ 2 ^ 31 - 512) :
    ∀ (fuel : Nat) (st : CopyState), (N - st.sampleswritten).toNat < fuel →
      st.written = (List.range st.iterations).map reads →
      (∀ k, k < st.iterations → 0 < reads k ∧ writes k = true) →
      st.sampleswritten = st.written.sum →
      (st.iterations : Int) ≤ st.sampleswritten →
      (st.iterations : Int) ≤ max N 0 →
      ∃ m : Nat, CopyOutcome N reads writes m (copyLoop N reads writes fuel st) := by
  intro fuel
  induction fuel with
  | zero => intro st h; omega
  | succ fuel ih =>
    intro st h hw hk hs hi hn
    rw [copyLoop]
    by_cases hlt : st.sampleswritten < N
    · rw [if_pos hlt]
      by_cases hrd : reads st.iterations > 0
      · by_cases hwr : writes st.iterations = true
        · simp only [hrd, hwr, if_true, not_true_eq_false, if_false]
          have hle := hr st.iterations
          have hwrap : int_add st.sampleswritten (reads st.iterations)
              = st.sampleswritten + reads st.iterations := by
            apply wrap32_of_range <;> norm_num at hN ⊢ <;> omega
          rw [hwrap]
          apply ih
          · simp only; omega
          · simp only [hw, List.range_succ, List.map_append, List.map_cons, List.map_nil]
          · intro k hk'
            simp only at hk'
            rcases Nat.lt_succ_iff_lt_or_eq.mp hk' with h1 | h1
            · exact hk k h1
            · rw [h1]; exact ⟨hrd, hwr⟩
          · simp only [List.sum_append, List.sum_cons, List.sum_nil, add_zero, hs]
          · simp only; push_cast; omega
          · simp only; push_cast; omega
        · simp only [hrd, if_true]
          rw [if_pos hwr]
          refine ⟨st.iterations, hw, hk, hs, ?_, Or.inr (Or.inl ⟨?_, rfl, hrd, ?_, hlt⟩)⟩
          · push_cast; omega
          · rfl
          · simpa using hwr
      · simp only [hrd, if_false]
        by_cases hneg : reads st.iterations < 0
        · refine ⟨st.iterations, hw, hk, hs, ?_, Or.inr (Or.inr (Or.inl ⟨?_, rfl, hneg, hlt⟩))⟩
          · push_cast; omega
          · simp [hneg]
        · refine ⟨st.iterations, hw, hk, hs, ?_, Or.inr (Or.inr (Or.inr ⟨?_, rfl, ?_, hlt⟩))⟩
          · push_cast; omega
          · simp [hneg]
          · omega
    · rw [if_neg hlt]
      exact ⟨st.iterations, hw, hk, hs, hn, Or.inl ⟨rfl, rfl, not_lt.mp hlt⟩⟩

theorem copyLoop_exit (N : Int) (reads : Nat → Int) (writes : Nat → Bool) (m : Nat)
    (r : CopyState) (h : CopyOutcome N reads writes m r) : r.exit ≠ none := by
  obtain ⟨_, _, _, _, h | h | h | h⟩ := h <;> rw [h.1] <;> simp

theorem copyLoop_fuel (N : Int) (reads : Nat → Int) (writes : Nat → Bool)
    (hr : ∀ k, reads k ≤ 512) (hN : N ≤ 2 ^ 31 - 512) :
    ∀ (fuel fuel' : Nat) (st : CopyState), (N - st.sampleswritten).toNat < fuel →
      (N - st.sampleswritten).toNat < fuel' → 0 ≤ st.sampleswritten →
      copyLoop N reads writes fuel st = copyLoop N reads writes fuel' st := by
  intro fuel
  induction fuel with
  | zero => intro fuel' st h; omega
  | succ fuel ih =>
    intro fuel' st h h' h0
    cases fuel' with
    | zero => omega
    | succ n =>
      rw [copyLoop, copyLoop]
      by_cases hlt : st.sampleswritten < N
      · rw [if_pos hlt, if_pos hlt]
        by_cases hrd : reads st.iterations > 0
        · by_cases hw : writes st.iterations = true
          · simp only [hrd, hw, if_true, not_true_eq_false, if_false]
            have hle := hr st.iterations
            have hwrap : int_add st.sampleswritten (reads st.iterations)
                = st.sampleswritten + reads st.iterations := by
              apply wrap32_of_range <;> norm_num at hN ⊢ <;> omega
            rw [hwrap]
            exact ih n _ (by simp only; omega) (by simp only; omega) (by simp only; omega)
          · simp [hrd, hw]
        · simp only [hrd, if_false]
      · rw [if_neg hlt, if_neg hlt]


/-- C24 (amended): with both files open, a reader that never returns more than the 512
samples asked for and `N = GetNumberSamples() <= 2^31 - 512`, the copy loop is left
(`exit` is set) whatever the reader and the writer return, and more fuel than `max(N, 0)`
loop bodies never changes the outcome.  If `m` blocks were written when the loop is left,
they are the first `m` blocks the reader returned, each with at least one sample and each
accepted by the writer, and `sampleswritten` is their sum; the loop body ran at most
`max(N, 0)` times; and the loop was left either through its condition with
`N <= sampleswritten`, or in body `m` by a failed write, a read error or the end of the
data, with `sampleswritten < N`. -/
theorem copyLoop_terminates (N : Int) (reads : Nat → Int) (writes : Nat → Bool)
    (hr : ∀ k, reads k ≤ 512) (hN : N ≤ 2 ^ 31 - 512) :
    ∃ (st : CopyState) (m : Nat),
      on_pushButtonStart_clicked true true N reads writes = some st ∧
      st.exit ≠ none ∧
      (∀ fuel : Nat, N.toNat < fuel →
        copyLoop N reads writes fuel ⟨0, 0, [], none⟩ = st) ∧
      st.written = (List.range m).map reads ∧
      (∀ k, k < m → 0 < reads k ∧ writes k = true) ∧
      st.sampleswritten = st.written.sum ∧
      (st.iterations : Int) ≤ max N 0 ∧
      ((st.exit = some CopyExit.finished ∧ st.iterations = m ∧ N ≤ st.sampleswritten) ∨
       (st.exit = some CopyExit.writeError ∧ st.iterations = m + 1 ∧ 0 < reads m ∧
          writes m = false ∧ st.sampleswritten < N) ∨
       (st.exit = some CopyExit.readError ∧ st.iterations = m + 1 ∧ reads m < 0 ∧
          st.sampleswritten < N) ∨
       (st.exit = some CopyExit.endOfData ∧ st.iterations = m + 1 ∧ reads m = 0 ∧
          st.sampleswritten < N)) := by
  have hfuel : (N - (⟨0, 0, [], none⟩ : CopyState).sampleswritten).toNat < N.toNat + 1 := by
    simp only [sub_zero]; omega
  obtain ⟨m, hm⟩ := copyLoop_run N reads writes hr hN (N.toNat + 1) ⟨0, 0, [], none⟩ hfuel
    rfl (fun k hk => absurd hk (Nat.not_lt_zero k)) rfl (le_refl _) (le_max_right _ _)
  refine ⟨copyLoop N reads writes (N.toNat + 1) ⟨0, 0, [], none⟩, m, ?_,
    copyLoop_exit N reads writes m _ hm, ?_, hm⟩
  · simp [on_pushButtonStart_clicked]
  · intro fuel hf
    exact copyLoop_fuel N reads writes hr hN fuel (N.toNat + 1) ⟨0, 0, [], none⟩
      (by simp only [sub_zero]; omega) hfuel (le_refl _)

theorem copyLoop_cycle : ∀ (fuel : Nat) (st : CopyState), st.exit = none →
    st.sampleswritten % 512 = 0 → -2 ^ 31 ≤ st.sampleswritten → st.sampleswritten < 2 ^ 31 →
    (copyLoop 2147483647 (fun _ => 512) (fun _ => true) fuel st).exit = none := by
  intro fuel
  induction fuel with
  | zero => intro st h _ _ _; exact h
  | succ fuel ih =>
    intro st h hd h0 h1
    rw [copyLoop]
    have hlt : st.sampleswritten < 2147483647 := by norm_num at h0 h1; omega
    rw [if_pos hlt]
    simp only [gt_iff_lt, Nat.ofNat_pos, if_true, not_true_eq_false, if_false]
    apply ih
    · exact h
    · simp only [int_add, wrap32]; norm_num at h0 h1 ⊢; omega
    · simp only [int_add, wrap32]; norm_num at h0 h1 ⊢; omega
    · simp only [int_add, wrap32]; norm_num at h0 h1 ⊢; omega

/-- Counterexample to C24 as stated.  With `N = 2` and a reader returning 1 and then
2147483647, `sampleswritten` wraps around to a negative value: after `max(N, 0) + 1 = 3`
loop bodies the loop is still running with `sampleswritten = -1`, which is not the sum of
the blocks written.  With `N = 2147483647` and a reader returning 512 every time,
`sampleswritten` stays a multiple of 512 below `N` and the loop never ends. -/
theorem copyLoop_overflow :
    on_pushButtonStart_clicked true true 2 (fun k => if k = 0 then 1 else 2147483647)
        (fun _ => true)
      = some ⟨-1, 3, [1, 2147483647, 2147483647], none⟩ ∧
    (∀ fuel : Nat,
      (copyLoop 2147483647 (fun _ => 512) (fun _ => true) fuel ⟨0, 0, [], none⟩).exit
        = none) := by
  refine ⟨by decide, fun fuel => copyLoop_cycle fuel _ rfl (by decide) (by decide) (by decide)⟩

/-- Witness of C24 (amended): a file of 1000 samples read in blocks of 512 and written
without error: the condition ends the loop after two blocks and 1024 samples. -/
theorem copyLoop_terminates_witness :
    ((∀ k : Nat, (fun _ : Nat => (512 : Int)) k ≤ 512) ∧ (1000 : Int) ≤ 2 ^ 31 - 512) ∧
    (∃ (st : CopyState) (m : Nat),
      on_pushButtonStart_clicked true true 1000 (fun _ => 512) (fun _ => true) = some st ∧
      st.exit ≠ none ∧ st.sampleswritten = st.written.sum ∧
      st.written = (List.range m).map (fun _ => 512)) ∧
    on_pushButtonStart_clicked true true 1000 (fun _ => 512) (fun _ => true)
      = some ⟨1024, 2, [512, 512], some CopyExit.finished⟩ := by
  obtain ⟨st, m, h1, h2, _, h4, _, h6, _⟩ :=
    copyLoop_terminates 1000 (fun _ => 512) (fun _ => true) (fun _ => le_refl _) (by decide)
  exact ⟨⟨fun _ => le_refl _, by decide⟩, ⟨st, m, h1, h2, h6, h4⟩, by decide⟩

/-! ## C25 : the status kept by `OnStatus` -/

/-- C25: after `OnStatus(s)` the members `m_LastStatus` and `m_Status` are equal, and
`m_Status` is `s` unless `s` is `ADOVR` and the status kept from the previous call
(`m_LastStatus`) is `RUNNING`, in which case it is `RUNNING`.  An `ADOVR` report adds no
`StopSdr` call, and leaves the status `RUNNING` exactly when it was `RUNNING` before. -/
theorem OnStatus_status (w : MainWindow) (s : eStatus) :
    (OnStatus w s).m_LastStatus = (OnStatus w s).m_Status ∧
    (OnStatus w s).m_Status
      = (if s = eStatus.ADOVR ∧ w.m_LastStatus = eStatus.RUNNING then eStatus.RUNNING else s) ∧
    stopSdrCalls (OnStatus w eStatus.ADOVR).calls = stopSdrCalls w.calls ∧
    ((OnStatus w eStatus.ADOVR).m_Status = eStatus.RUNNING ↔
      w.m_LastStatus = eStatus.RUNNING) := by
  refine ⟨rfl, ?_, ?_, ?_⟩
  · cases s <;> simp only [OnStatus, MainWindow.call] <;> (try split_ifs) <;> simp_all
  · simp only [OnStatus, MainWindow.call]
    split_ifs <;> simp [stopSdrCalls]
  · simp only [OnStatus, MainWindow.call]
    split_ifs <;> simp_all

/-! ## C26 : the keep-alive timer of `OnTimer` -/

theorem keepAliveCalls_append (a b : List Call) :
    keepAliveCalls (a ++ b) = keepAliveCalls a ++ keepAliveCalls b := by
  simp [keepAliveCalls]

theorem OnStatus_keepAlive (w : MainWindow) (status : eStatus) :
    keepAliveCalls (OnStatus w status).calls = keepAliveCalls w.calls ∧
    (OnStatus w status).m_KeepAliveTimer = w.m_KeepAliveTimer := by
  cases status <;>
    simp only [OnStatus, MainWindow.call] <;>
    (try split_ifs) <;>
    refine ⟨?_, ?_⟩ <;>
    (try simp only [keepAliveCalls_append, List.append_assoc]) <;>
    first | rfl | exact List.append_nil _

theorem OnTimer_wfm_keepAlive (stereoLock rdsRet : Int) (RdsGroups : tRDS_GROUPS)
    (rdsString rdsCallString : Bool) (w : MainWindow) :
    keepAliveCalls (OnTimer_wfm stereoLock rdsRet RdsGroups rdsString rdsCallString w).calls
      = keepAliveCalls w.calls ∧
    (OnTimer_wfm stereoLock rdsRet RdsGroups rdsString rdsCallString w).m_KeepAliveTimer
      = w.m_KeepAliveTimer ∧
    (OnTimer_wfm stereoLock rdsRet RdsGroups rdsString rdsCallString w).m_Status
      = w.m_Status := by
  simp only [OnTimer_wfm, MainWindow.call]
  split_ifs <;>
    refine ⟨?_, ?_, ?_⟩ <;>
    (try simp only [keepAliveCalls_append, List.append_assoc]) <;>
    first | rfl | exact List.append_nil _

theorem OnTimer_keepAlive_spec (w : MainWindow) :
    keepAliveCalls (OnTimer_keepAlive w).calls = keepAliveCalls w.calls ++
      (if w.m_KeepAliveTimer + 1 > 5 then
        (if w.m_Status = eStatus.RUNNING ∨ w.m_Status = eStatus.CONNECTED
          then [Call.KeepAlive] else []) ++
        (if w.m_Status = eStatus.NOT_CONNECTED then [Call.ConnectToServer] else [])
       else []) ∧
    (OnTimer_keepAlive w).m_KeepAliveTimer
      = (if w.m_KeepAliveTimer + 1 > 5 then 0 else w.m_KeepAliveTimer + 1) ∧
    (OnTimer_keepAlive w).m_Status = w.m_Status := by
  by_cases h5 : w.m_KeepAliveTimer + 1 > 5 <;>
    cases hS : w.m_Status <;>
    simp [OnTimer_keepAlive, MainWindow.call, keepAliveCalls, hS, h5]

theorem OnTimer_step (stereoLock rdsRet : Int) (RdsGroups : tRDS_GROUPS)
    (rdsString rdsCallString : Bool) (w : MainWindow) :
    keepAliveCalls (OnTimer stereoLock rdsRet RdsGroups rdsString rdsCallString w).calls
      = keepAliveCalls w.calls ++
      (if w.m_KeepAliveTimer + 1 > 5 then
        (if (OnTimer stereoLock rdsRet RdsGroups rdsString rdsCallString w).m_Status
              = eStatus.RUNNING ∨
            (OnTimer stereoLock rdsRet RdsGroups rdsString rdsCallString w).m_Status
              = eStatus.CONNECTED
          then [Call.KeepAlive] else []) ++
        (if (OnTimer stereoLock rdsRet RdsGroups rdsString rdsCallString w).m_Status
              = eStatus.NOT_CONNECTED then [Call.ConnectToServer] else [])
       else []) ∧
    (OnTimer stereoLock rdsRet RdsGroups rdsString rdsCallString w).m_KeepAliveTimer
      = (if w.m_KeepAliveTimer + 1 > 5 then 0 else w.m_KeepAliveTimer + 1) ∧
    (OnTimer stereoLock rdsRet RdsGroups rdsString rdsCallString w).m_Status
      = (OnStatus w w.m_Status).m_Status := by
  obtain ⟨s1, s2⟩ := OnStatus_keepAlive w w.m_Status
  obtain ⟨k1, k2, k3⟩ := OnTimer_keepAlive_spec (OnStatus w w.m_Status)
  obtain ⟨f1, f2, f3⟩ := OnTimer_wfm_keepAlive stereoLock rdsRet RdsGroups rdsString
    rdsCallString (((OnTimer_keepAlive (OnStatus w w.m_Status)).call .GetSMeterAve).call
      .SetdBmLevel)
  have hst : (OnTimer stereoLock rdsRet RdsGroups rdsString rdsCallString w).m_Status
      = (OnStatus w w.m_Status).m_Status := by
    show (OnTimer_wfm stereoLock rdsRet RdsGroups rdsString rdsCallString _).m_Status = _
    rw [f3]; exact k3
  refine ⟨?_, ?_, hst⟩
  · rw [hst]
    show keepAliveCalls
      (OnTimer_wfm stereoLock rdsRet RdsGroups rdsString rdsCallString _).calls = _
    rw [f1]
    show keepAliveCalls ((OnTimer_keepAlive (OnStatus w w.m_Status)).calls ++ _ ++ _) = _
    rw [keepAliveCalls_append, keepAliveCalls_append, k1, s1, s2]
    show _ ++ _ ++ [] ++ [] = _
    simp only [List.append_nil]
  · show (OnTimer_wfm stereoLock rdsRet RdsGroups rdsString rdsCallString _).m_KeepAliveTimer
      = _
    rw [f2]
    show (OnTimer_keepAlive (OnStatus w w.m_Status)).m_KeepAliveTimer = _
    rw [k2, s2]

theorem runTicks_append (a : List TimerTick) (t : TimerTick) (w : MainWindow) :
    runTicks (a ++ [t]) w = t.run (runTicks a w) := by
  simp [runTicks]

theorem runTicks_timer (ticks : List TimerTick) (w0 : MainWindow)
    (h0 : w0.m_KeepAliveTimer = 0)
    (hb : ∀ u ∈ ticks, ∀ w, (u.before w).m_KeepAliveTimer = w.m_KeepAliveTimer) :
    (runTicks ticks w0).m_KeepAliveTimer = ((ticks.length % 6 : Nat) : Int) := by
  induction ticks using List.reverseRecOn with
  | nil => simpa [runTicks] using h0
  | append_singleton a t ih =>
    have ih' := ih (fun u hu => hb u (List.mem_append_left _ hu))
    have ht := hb t (List.mem_append_right _ (List.mem_singleton_self t)) (runTicks a w0)
    rw [runTicks_append]
    have hs := (OnTimer_step t.stereoLock t.rdsRet t.RdsGroups t.rdsString t.rdsCallString
      (t.before (runTicks a w0))).2.1
    show (OnTimer _ _ _ _ _ _).m_KeepAliveTimer = _
    rw [hs, ht, ih', List.length_append, List.length_singleton]
    split_ifs <;> omega

/-- C26: a window whose `m_KeepAliveTimer` is 0 (as the constructor leaves it) goes
through the timer ticks `ticks` and then through the tick `t`, where nothing but `OnTimer`
writes the timer.  After this `OnTimer` call, number `ticks.length + 1`, the timer is the
call number modulo 6, hence between 0 and 5.  The call adds keep-alive calls exactly when
its number is a multiple of 6: then `KeepAlive` if the status is `RUNNING` or `CONNECTED`,
and `ConnectToServer` if the status is `NOT_CONNECTED`; otherwise it adds none. -/
theorem OnTimer_keepAlive_every_sixth (ticks : List TimerTick) (t : TimerTick)
    (w0 : MainWindow) (h0 : w0.m_KeepAliveTimer = 0)
    (hb : ∀ u ∈ ticks ++ [t], ∀ w, (u.before w).m_KeepAliveTimer = w.m_KeepAliveTimer) :
    (t.run (runTicks ticks w0)).m_KeepAliveTimer = (((ticks.length + 1) % 6 : Nat) : Int) ∧
    0 ≤ (t.run (runTicks ticks w0)).m_KeepAliveTimer ∧
    (t.run (runTicks ticks w0)).m_KeepAliveTimer ≤ 5 ∧
    keepAliveCalls (t.run (runTicks ticks w0)).calls
      = keepAliveCalls (t.before (runTicks ticks w0)).calls ++
        (if (ticks.length + 1) % 6 = 0 then
          (if (t.run (runTicks ticks w0)).m_Status = eStatus.RUNNING ∨
              (t.run (runTicks ticks w0)).m_Status = eStatus.CONNECTED
            then [Call.KeepAlive] else []) ++
          (if (t.run (runTicks ticks w0)).m_Status = eStatus.NOT_CONNECTED
            then [Call.ConnectToServer] else [])
         else []) := by
  have ht : (t.run (runTicks ticks w0)).m_KeepAliveTimer
      = (((ticks.length + 1) % 6 : Nat) : Int) := by
    have := runTicks_timer (ticks ++ [t]) w0 h0 hb
    rwa [runTicks_append, List.length_append, List.length_singleton] at this
  have hprev := runTicks_timer ticks w0 h0 (fun u hu => hb u (List.mem_append_left _ hu))
  have hbt := hb t (List.mem_append_right _ (List.mem_singleton_self t)) (runTicks ticks w0)
  refine ⟨ht, by rw [ht]; omega, by rw [ht]; omega, ?_⟩
  have hs := (OnTimer_step t.stereoLock t.rdsRet t.RdsGroups t.rdsString t.rdsCallString
      (t.before (runTicks ticks w0))).1
  have hc : ((t.before (runTicks ticks w0)).m_KeepAliveTimer + 1 > 5)
      ↔ (ticks.length + 1) % 6 = 0 := by
    rw [hbt, hprev]; omega
  show keepAliveCalls (OnTimer _ _ _ _ _ _).calls = _
  rw [hs]
  congr 1
  by_cases h : (ticks.length + 1) % 6 = 0
  · rw [if_pos h, if_pos (hc.2 h)]; rfl
  · rw [if_neg h, if_neg (fun h' => h (hc.1 h'))]

/-- Witness of C26: six idle ticks of the window `zeroWindow`, whose status is
`NOT_CONNECTED`: the sixth `OnTimer` call resets the timer and calls `ConnectToServer`. -/
theorem OnTimer_keepAlive_every_sixth_witness :
    zeroWindow.m_KeepAliveTimer = 0 ∧
    (idleTick.run (runTicks [idleTick, idleTick, idleTick, idleTick, idleTick]
      zeroWindow)).m_KeepAliveTimer = 0 ∧
    keepAliveCalls (idleTick.run (runTicks [idleTick, idleTick, idleTick, idleTick, idleTick]
      zeroWindow)).calls = [Call.ConnectToServer] := by
  have h := OnTimer_keepAlive_every_sixth [idleTick, idleTick, idleTick, idleTick, idleTick]
    idleTick zeroWindow rfl (by
      intro u hu w
      have hu' : u = idleTick := by simpa using hu
      rw [hu']; rfl)
  refine ⟨rfl, h.1.trans (by decide), ?_⟩
  rfl

/-! ## C27 : the reference level after a change of the vertical scale -/

theorem tdiv_mul_close (x s : Int) (hs : 0 < s) :
    s ∣ Int.tdiv x s * s ∧ |x - Int.tdiv x s * s| < s := by
  refine ⟨Dvd.intro_left _ rfl, ?_⟩
  rcases le_or_lt 0 x with hx | hx
  · have h1 := Int.tdiv_add_tmod x s
    have h2 := Int.tmod_lt_of_pos x hs
    have h3 := Int.tmod_nonneg s hx
    have h4 : s * x.tdiv s = x.tdiv s * s := mul_comm _ _
    rw [abs_lt]; constructor <;> omega
  · have h0 : x.tdiv s = -((-x).tdiv s) := by rw [Int.neg_tdiv, neg_neg]
    have h1 := Int.tdiv_add_tmod (-x) s
    have h2 := Int.tmod_lt_of_pos (-x) hs
    have h3 := Int.tmod_nonneg s (by omega : 0 ≤ -x)
    have h4 : s * (-x).tdiv s = (-x).tdiv s * s := mul_comm _ _
    have h5 : x.tdiv s * s = -((-x).tdiv s * s) := by rw [h0]; ring
    rw [abs_lt]; constructor <;> omega

theorem itemData_steps (index : Int) (h0 : 0 ≤ index) (h3 : index ≤ 3) :
    0 < ScalecomboBox_itemData index := by
  simp only [ScalecomboBox_itemData]
  split_ifs <;> omega

theorem int_sum (a b c : Int) :
    int_add a (int_mul 11 (int_sub b c)) = wrap32 (a + 11 * (b - c)) := by
  simp only [int_add, int_mul, int_sub, wrap32]
  norm_num
  omega

theorem tdiv_mul_bounds (x s : Int) (hs : 0 < s) :
    min x 0 ≤ Int.tdiv x s ∧ Int.tdiv x s ≤ max x 0 ∧
    min x 0 ≤ Int.tdiv x s * s ∧ Int.tdiv x s * s ≤ max x 0 := by
  have h4 : s * x.tdiv s = x.tdiv s * s := mul_comm _ _
  rcases le_or_lt 0 x with hx | hx
  · have h1 := Int.tdiv_add_tmod x s
    have h2 := Int.tmod_nonneg s hx
    have h3 : 0 ≤ x.tdiv s := Int.tdiv_nonneg hx hs.le
    have h5 : x.tdiv s ≤ x.tdiv s * s := by nlinarith
    rw [min_eq_right hx, max_eq_left hx]
    refine ⟨?_, ?_, ?_, ?_⟩ <;> omega
  · have h0 : x.tdiv s = -((-x).tdiv s) := by rw [Int.neg_tdiv, neg_neg]
    have h1 := Int.tdiv_add_tmod (-x) s
    have h2 := Int.tmod_nonneg s (by omega : 0 ≤ -x)
    have h3 : 0 ≤ (-x).tdiv s := Int.tdiv_nonneg (by omega) hs.le
    have h4' : s * (-x).tdiv s = (-x).tdiv s * s := mul_comm _ _
    have h5 : (-x).tdiv s ≤ (-x).tdiv s * s := by nlinarith
    have h6 : x.tdiv s * s = -((-x).tdiv s * s) := by rw [h0]; ring
    rw [min_eq_left hx.le, max_eq_right hx.le]
    refine ⟨?_, ?_, ?_, ?_⟩ <;> omega

/-- C27 (amended): `OnVertScaleChanged` with the four-item combo box and an index 0..3
sets the step size to the item's data, one of 10, 5, 3, 1.  When that step differs from
the previous one and `x = LastMaxdB + 11*(step - oldStep)` lies in the range of `int`,
the new `m_MaxdB` is `(x / step) * step` with the truncating division of C: a multiple of
the new step that differs from `x` by less than one new step.  When the step equals the
previous one, `m_MaxdB` is unchanged. -/
theorem OnVertScaleChanged_MaxdB (w : MainWindow) (index : Int)
    (h0 : 0 ≤ index) (h3 : index ≤ 3)
    (hlo : -2 ^ 31 ≤ w.m_MaxdB + 11 * (ScalecomboBox_itemData index - w.m_dBStepSize))
    (hhi : w.m_MaxdB + 11 * (ScalecomboBox_itemData index - w.m_dBStepSize) ≤ 2 ^ 31 - 1) :
    (OnVertScaleChanged 4 w index).m_dBStepSize = ScalecomboBox_itemData index ∧
    (ScalecomboBox_itemData index = 10 ∨ ScalecomboBox_itemData index = 5 ∨
      ScalecomboBox_itemData index = 3 ∨ ScalecomboBox_itemData index = 1) ∧
    (ScalecomboBox_itemData index ≠ w.m_dBStepSize →
      (OnVertScaleChanged 4 w index).m_MaxdB
        = Int.tdiv (w.m_MaxdB + 11 * (ScalecomboBox_itemData index - w.m_dBStepSize))
            (ScalecomboBox_itemData index) * ScalecomboBox_itemData index ∧
      ScalecomboBox_itemData index ∣ (OnVertScaleChanged 4 w index).m_MaxdB ∧
      |(w.m_MaxdB + 11 * (ScalecomboBox_itemData index - w.m_dBStepSize))
        - (OnVertScaleChanged 4 w index).m_MaxdB| < ScalecomboBox_itemData index) ∧
    (ScalecomboBox_itemData index = w.m_dBStepSize →
      (OnVertScaleChanged 4 w index).m_MaxdB = w.m_MaxdB) := by
  have hpos := itemData_steps index h0 h3
  refine ⟨?_, ?_, ?_, ?_⟩
  · simp [OnVertScaleChanged, MainWindow.call]
    split_ifs <;> rfl
  · simp only [ScalecomboBox_itemData]
    split_ifs <;> omega
  · intro hne
    have hx : wrap32 (w.m_MaxdB + 11 * (ScalecomboBox_itemData index - w.m_dBStepSize))
        = w.m_MaxdB + 11 * (ScalecomboBox_itemData index - w.m_dBStepSize) :=
      wrap32_of_range _ hlo hhi
    obtain ⟨b1, b2, b3, b4⟩ := tdiv_mul_bounds
      (w.m_MaxdB + 11 * (ScalecomboBox_itemData index - w.m_dBStepSize)) _ hpos
    have hq : int_div (w.m_MaxdB + 11 * (ScalecomboBox_itemData index - w.m_dBStepSize))
          (ScalecomboBox_itemData index)
        = Int.tdiv (w.m_MaxdB + 11 * (ScalecomboBox_itemData index - w.m_dBStepSize))
          (ScalecomboBox_itemData index) := by
      apply wrap32_of_range <;> norm_num at hlo hhi ⊢ <;> omega
    have hp : int_mul (Int.tdiv
          (w.m_MaxdB + 11 * (ScalecomboBox_itemData index - w.m_dBStepSize))
          (ScalecomboBox_itemData index)) (ScalecomboBox_itemData index)
        = Int.tdiv (w.m_MaxdB + 11 * (ScalecomboBox_itemData index - w.m_dBStepSize))
          (ScalecomboBox_itemData index) * ScalecomboBox_itemData index := by
      apply wrap32_of_range <;> norm_num at hlo hhi ⊢ <;> omega
    have hm : (OnVertScaleChanged 4 w index).m_MaxdB
        = Int.tdiv (w.m_MaxdB + 11 * (ScalecomboBox_itemData index - w.m_dBStepSize))
            (ScalecomboBox_itemData index) * ScalecomboBox_itemData index := by
      simp [OnVertScaleChanged, MainWindow.call, hne, int_sum, hx, hq, hp]
    rw [hm]
    exact ⟨rfl, tdiv_mul_close _ _ hpos⟩
  · intro he
    simp [OnVertScaleChanged, MainWindow.call, he]

/-- Counterexample to C27 as stated: with `m_MaxdB = 2147483647` (a value `readSettings`
loads unchecked) a change from 5 dB/div to 10 dB/div (index 0) overflows the sum
`LastMaxdB + 11*(10 - 5)`: the new `m_MaxdB` is `-2147483590`, which differs from
`2147483647 + 55` by far more than one step. -/
theorem OnVertScaleChanged_overflow :
    (OnVertScaleChanged 4 { zeroWindow with m_dBStepSize := 5, m_MaxdB := 2147483647 }
      0).m_MaxdB = -2147483590 ∧
    ¬ (|(2147483647 + 11 * (10 - 5) : Int) - (-2147483590)| < 10) := by
  decide

/-- Witness of C27 (amended): from 5 dB/div with `m_MaxdB = -30` to 3 dB/div (index 2):
`x = -30 + 11*(3 - 5) = -52`, and the truncating division gives `-51`. -/
theorem OnVertScaleChanged_MaxdB_witness :
    ((0 : Int) ≤ 2 ∧ (2 : Int) ≤ 3) ∧
    (-2 ^ 31 ≤ ({ zeroWindow with m_dBStepSize := 5, m_MaxdB := -30 }).m_MaxdB
        + 11 * (ScalecomboBox_itemData 2
          - ({ zeroWindow with m_dBStepSize := 5, m_MaxdB := -30 }).m_dBStepSize) ∧
      ({ zeroWindow with m_dBStepSize := 5, m_MaxdB := -30 }).m_MaxdB
        + 11 * (ScalecomboBox_itemData 2
          - ({ zeroWindow with m_dBStepSize := 5, m_MaxdB := -30 }).m_dBStepSize)
        ≤ 2 ^ 31 - 1) ∧
    ScalecomboBox_itemData 2 ≠ ({ zeroWindow with m_dBStepSize := 5, m_MaxdB := -30 }).m_dBStepSize ∧
    (OnVertScaleChanged 4 { zeroWindow with m_dBStepSize := 5, m_MaxdB := -30 } 2).m_MaxdB
      = -51 :=
  ⟨⟨by decide, by decide⟩, ⟨by decide, by decide⟩, by decide,
    ((OnVertScaleChanged_MaxdB { zeroWindow with m_dBStepSize := 5, m_MaxdB := -30 } 2
      (by decide) (by decide) (by decide) (by decide)).2.2.1 (by decide)).1.trans (by decide)⟩

end CuteSdr
